import Mathlib

/-!
Verification development for the pulse-detection similarity engine of
`pulse_analyzer_app.py`.

The engine scores every aligned window of a readings signal against a short
reference template under one of three similarity metrics (normalized
cross-correlation, cosine similarity, DTW-derived similarity), extracts
thresholded, minimum-separated peaks from the score sequence with
`scipy.signal.find_peaks`, and assembles the selected peaks into pulse
records plus a noise-zeroed copy of the readings signal.

Modelling conventions:
* Python floats are modelled by real numbers; `np.nan_to_num` is therefore
  the identity (every value of the model is a finite real) and is not
  represented explicitly.
* `np.isclose(v, 0)` with numpy defaults (`rtol = 1e-5`, `atol = 1e-8`)
  is `|v - 0| ≤ atol + rtol * |0| = 1e-8`, modelled by `isclose0`.
* Sequential numpy arrays are modelled by lists; `signal[i : i + m]` is
  `(signal.drop i).take m`.
* The `fastdtw` library used for oversized inputs is not reimplemented; the
  DTW metric takes the per-window distance function of that fallback mode
  as an explicit parameter, exactly at the point where the source switches
  strategy on input size.
* The Qt progress dialog / cancellation plumbing is omitted: all claims
  under verification concern uncancelled runs (the source code with
  `progress_dialog = None` and an unexported progress bar).
-/

namespace PulseAnalyzer

/-- `np.isclose(x, 0)` with numpy defaults `rtol = 1e-5`, `atol = 1e-8`:
`|x - 0| ≤ atol + rtol * |0| = 1e-8`. -/
def isclose0 (x : ℝ) : Prop := |x| ≤ 1 / 10 ^ 8

noncomputable instance (x : ℝ) : Decidable (isclose0 x) := by
  unfold isclose0; infer_instance

/-- `np.mean(xs)` (mean of a 1-d array; `0/0 = 0` for the empty array,
which the engine never hits). -/
noncomputable def npMean (xs : List ℝ) : ℝ := xs.sum / xs.length

/-- Population variance, as used by `np.std(xs) ** 2`. -/
noncomputable def npVar (xs : List ℝ) : ℝ :=
  ((xs.map fun v => (v - npMean xs) ^ 2).sum) / xs.length

/-- `np.std(xs)`: population standard deviation. -/
noncomputable def npStd (xs : List ℝ) : ℝ := Real.sqrt (npVar xs)

/-- `np.sum(a * b)` for equal-length 1-d arrays (elementwise product, then sum). -/
noncomputable def dot (a b : List ℝ) : ℝ := (List.zipWith (· * ·) a b).sum

/-- Sum of squares of a vector. -/
noncomputable def sumSq (a : List ℝ) : ℝ := (a.map fun v => v ^ 2).sum

/-- Euclidean norm of a vector, `np.linalg.norm`. -/
noncomputable def l2norm (a : List ℝ) : ℝ := Real.sqrt (sumSq a)

/-- `scipy.spatial.distance.euclidean(u, v)`. -/
noncomputable def euclidean_dist (u v : List ℝ) : ℝ :=
  Real.sqrt ((List.zipWith (fun a b => (a - b) ^ 2) u v).sum)

/-- `np.max(np.abs(xs))` (for the nonempty lists the engine feeds it; the
`0` seed is absorbed because every `|v|` is nonnegative). -/
noncomputable def maxAbs (xs : List ℝ) : ℝ := (xs.map fun v => |v|).foldr max 0

/-- `np.clip(v, -1.0, 1.0)`. -/
noncomputable def clip (v : ℝ) : ℝ := min 1 (max v (-1))

/-- Embedding of `_normalized_cross_correlation(self, signal, template)`
(source lines 771-789).  Final `np.clip` is applied to the computed score
array; the trailing `np.nan_to_num` is the identity in the real model. -/
noncomputable def normalized_cross_correlation (signal template : List ℝ) : List ℝ :=
  if template.length = 0 ∨ signal.length = 0 ∨ signal.length < template.length then []
  else
    let template_zm := template.map fun v => v - npMean template
    let template_std := npStd template
    if isclose0 template_std then List.replicate (signal.length - template.length + 1) 0
    else
      ((List.range (signal.length - template.length + 1)).map fun i =>
        let window := (signal.drop i).take template.length
        let window_zm := window.map fun v => v - npMean window
        let window_std := npStd window
        if isclose0 window_std then 0
        else
          let corr := dot window_zm template_zm
          let norm_factor := (template.length : ℝ) * window_std * template_std
          if isclose0 norm_factor then 0
          else corr / norm_factor).map clip

/-- Embedding of `_calculate_cosine_similarity(self, signal, template)`
(source lines 791-800).  `sklearn.metrics.pairwise.cosine_similarity`
normalizes each row vector, leaving exact zero vectors unchanged, so a zero
window or template scores 0 — which coincides with the `x / 0 = 0`
convention of real division used here. -/
noncomputable def calculate_cosine_similarity (signal template : List ℝ) : List ℝ :=
  if template.length = 0 ∨ signal.length = 0 ∨ signal.length < template.length then []
  else
    (List.range (signal.length - template.length + 1)).map fun i =>
      let window := (signal.drop i).take template.length
      dot window template / (l2norm window * l2norm template)

/-- Local cost `abs(x[i] - y[j])` — the `element_dist_func` lambda of the
source (line 816). -/
noncomputable def dtwCost (x y : List ℝ) (i j : ℕ) : ℝ := |x.getD i 0 - y.getD j 0|

/-- Row 0 of the cumulative cost matrix of the `dtw` package with its
default `symmetric2` step pattern: along the first row only horizontal
steps are possible. -/
noncomputable def dtwRow0 (x y : List ℝ) : ℕ → ℝ
  | 0 => dtwCost x y 0 0
  | j + 1 => dtwRow0 x y j + dtwCost x y 0 (j + 1)

/-- Row `i` of the `symmetric2` cumulative cost matrix from row `i - 1`:
`D[i][j] = min(D[i-1][j-1] + 2c, D[i-1][j] + c, D[i][j-1] + c)` with
`c = |x[i] - y[j]|`; the first column allows only vertical steps. -/
noncomputable def dtwNextRow (x y : List ℝ) (i : ℕ) (prev : ℕ → ℝ) : ℕ → ℝ
  | 0 => prev 0 + dtwCost x y i 0
  | j + 1 =>
    min (min (prev j + 2 * dtwCost x y i (j + 1)) (prev (j + 1) + dtwCost x y i (j + 1)))
      (dtwNextRow x y i prev j + dtwCost x y i (j + 1))

/-- Full cumulative cost matrix of the `dtw` package (`symmetric2`). -/
noncomputable def dtwMatrix (x y : List ℝ) : ℕ → ℕ → ℝ
  | 0 => dtwRow0 x y
  | i + 1 => dtwNextRow x y (i + 1) (dtwMatrix x y i)

/-- `dtw(x, y, dist_method=element_dist_func).distance` — the unnormalized
global alignment cost. -/
noncomputable def dtwDistance (x y : List ℝ) : ℝ :=
  dtwMatrix x y (x.length - 1) (y.length - 1)

/-- `self.max_sample_size_for_dtw` (source line 142). -/
def max_sample_size_for_dtw : ℕ := 1000

/-- Embedding of source lines 811-815: the per-template normalization
heuristic.  It defaults to `template_len`; only when
`np.max(np.abs(template)) > 1e-9` is it replaced by the Euclidean distance
between an all-zero vector and a vector filled with the maximum absolute
value, falling back to `template_len` again if that distance is
`np.isclose` to 0. -/
noncomputable def max_possible_dist_heuristic (template : List ℝ) : ℝ :=
  if 1 / 10 ^ 9 < maxAbs template then
    let e := euclidean_dist (List.replicate template.length 0)
      (List.replicate template.length (maxAbs template))
    if isclose0 e then (template.length : ℝ) else e
  else (template.length : ℝ)

/-- Embedding of source lines 833-838: map one window's DTW alignment
distance to a similarity score given the heuristic `H`. -/
noncomputable def dtw_window_similarity (H distance : ℝ) : ℝ :=
  if isclose0 H then (if isclose0 distance then 1 else 0)
  else max 0 (1 - min (distance / H) 1)

/-- The alignment distance computed for window `i` (source lines 823-830):
exact `dtw` normally, the `fastdtw` fallback (supplied as a parameter, see
the module header) when the size bound of line 805 is exceeded. -/
noncomputable def dtw_window_distance (fastdtw_distance : List ℝ → List ℝ → ℝ)
    (signal template : List ℝ) (i : ℕ) : ℝ :=
  let window := (signal.drop i).take template.length
  if max_sample_size_for_dtw < template.length ∨
      max_sample_size_for_dtw * 10 < signal.length then
    fastdtw_distance template window
  else dtwDistance template window

/-- Embedding of `_calculate_dtw_similarity(self, signal, template)`
(source lines 802-840), without the progress dialog (no cancellation). -/
noncomputable def calculate_dtw_similarity (fastdtw_distance : List ℝ → List ℝ → ℝ)
    (signal template : List ℝ) : List ℝ :=
  if template.length = 0 ∨ signal.length = 0 ∨ signal.length < template.length then []
  else
    let H := max_possible_dist_heuristic template
    (List.range (signal.length - template.length + 1)).map fun i =>
      dtw_window_similarity H (dtw_window_distance fastdtw_distance signal template i)

section PeakFinding

variable {α : Type} [LinearOrder α] [Inhabited α]

/-- The inner plateau scan of scipy's `_local_maxima_1d`: starting at `j`,
advance while `j < i_max` and `x[j] == v`, returning the first index where
the scan stops (`i_ahead` after the inner `while`). -/
def plateauEnd (x : List α) (v : α) (iMax : ℕ) (j : ℕ) : ℕ :=
  if h : j < iMax ∧ x.getD j default = v then plateauEnd x v iMax (j + 1) else j
termination_by iMax - j
decreasing_by omega

/-- The main scan of scipy's `_local_maxima_1d` from index `i`:
a candidate needs `x[i-1] < x[i]`; its plateau is scanned ahead; if the
sample after the plateau is strictly smaller, the midpoint
`(left_edge + right_edge) // 2` is emitted and the scan resumes after the
plateau. -/
def lmLoop (x : List α) (iMax : ℕ) (i : ℕ) : List ℕ :=
  if hlt : i < iMax then
    if x.getD (i - 1) default < x.getD i default then
      let iAhead := plateauEnd x (x.getD i default) iMax (i + 1)
      if x.getD iAhead default < x.getD i default then
        (i + (iAhead - 1)) / 2 :: lmLoop x iMax (iAhead + 1)
      else lmLoop x iMax (i + 1)
    else lmLoop x iMax (i + 1)
  else []
termination_by iMax - i
decreasing_by
  · have h2 : i + 1 ≤ plateauEnd x (x.getD i default) iMax (i + 1) := by
      generalize i + 1 = j
      induction j using plateauEnd.induct x (x.getD i default) iMax with
      | case1 j h ih => rw [plateauEnd, dif_pos h]; omega
      | case2 j h => rw [plateauEnd, dif_neg h]
    omega
  · omega
  · omega

/-- scipy `_local_maxima_1d(x)`: the scan runs over `1 ≤ i < len(x) - 1`,
so the first and last samples are never candidates. -/
def local_maxima_1d (x : List α) : List ℕ := lmLoop x (x.length - 1) 1

/-- Insert an index into an index list sorted ascending by priority
(helper realizing `np.argsort`; numpy leaves the relative order of equal
priorities unspecified, this model keeps equal priorities in list order). -/
def insertByPriority (priority : List α) (j : ℕ) : List ℕ → List ℕ
  | [] => [j]
  | k :: rest =>
    if priority.getD j default < priority.getD k default then j :: k :: rest
    else k :: insertByPriority priority j rest

/-- `np.argsort(priority)` over an index list: indices sorted by ascending
priority. -/
def argsort (priority : List α) : List ℕ → List ℕ
  | [] => []
  | j :: rest => insertByPriority priority j (argsort priority rest)

/-- Left scan of scipy `_select_by_peak_distance` for the peak at position
`j` with offset `pj`: walk `k = j-1, j-2, ...` while
`peaks[j] - peaks[k] < distance`, clearing the keep flag of each visited
position (integer subtraction, as in numpy). -/
def clearLeft (peaks : List ℕ) (distance pj : ℕ) : ℕ → List Bool → List Bool
  | 0, keep =>
    if (pj : ℤ) - (peaks.getD 0 0 : ℤ) < (distance : ℤ) then keep.set 0 false else keep
  | k + 1, keep =>
    if (pj : ℤ) - (peaks.getD (k + 1) 0 : ℤ) < (distance : ℤ) then
      clearLeft peaks distance pj k (keep.set (k + 1) false)
    else keep

/-- Right scan of scipy `_select_by_peak_distance`: walk
`k = j+1, j+2, ...` while `k < peaks_size` and
`peaks[k] - peaks[j] < distance`, clearing each visited keep flag. -/
def clearRight (peaks : List ℕ) (distance pj : ℕ) (k : ℕ) (keep : List Bool) : List Bool :=
  if h : k < peaks.length ∧ (peaks.getD k 0 : ℤ) - (pj : ℤ) < (distance : ℤ) then
    clearRight peaks distance pj (k + 1) (keep.set k false)
  else keep
termination_by peaks.length - k
decreasing_by omega

/-- The left scan entry point for position `j`: for `j = 0` the scan body
never runs (`k = -1` fails `0 <= k` at once), otherwise it starts at
`k = j - 1`. -/
def spdKeep1 (peaks : List ℕ) (distance : ℕ) : ℕ → List Bool → List Bool
  | 0, keep => keep
  | j' + 1, keep => clearLeft peaks distance (peaks.getD (j' + 1) 0) j' keep

/-- Main loop of scipy `_select_by_peak_distance`: process positions in
the given order (highest priority first); a position whose keep flag is
already cleared is skipped, otherwise its two directional scans run. -/
def spdLoop (peaks : List ℕ) (distance : ℕ) : List ℕ → List Bool → List Bool
  | [], keep => keep
  | j :: rest, keep =>
    if keep.getD j false then
      spdLoop peaks distance rest
        (clearRight peaks distance (peaks.getD j 0) (j + 1) (spdKeep1 peaks distance j keep))
    else spdLoop peaks distance rest keep

/-- scipy `_select_by_peak_distance(peaks, priority, distance)` followed by
the boolean-mask selection `peaks[keep]` done by `find_peaks`.  `distance`
is an integer here so `np.ceil` is the identity. -/
def select_by_peak_distance (peaks : List ℕ) (priority : List α) (distance : ℕ) : List ℕ :=
  let n := peaks.length
  let order := (argsort priority (List.range n)).reverse
  let keep := spdLoop peaks distance order (List.replicate n true)
  ((List.range n).filter fun idx => keep.getD idx false).map fun idx => peaks.getD idx 0

/-- `scipy.signal.find_peaks(x, height, distance)` restricted to the two
keyword arguments the source uses: local maxima, then the inclusive height
filter (`height <= x[peak]`), then the minimum-distance selection with the
surviving heights as priority. -/
def find_peaks (x : List α) (height : α) (distance : ℕ) : List ℕ :=
  let peaks := local_maxima_1d x
  let peaks2 := peaks.filter fun p => decide (height ≤ x.getD p default)
  select_by_peak_distance peaks2 (peaks2.map fun p => x.getD p default) distance

end PeakFinding

/-- `max(1, int(template_len * 0.75))` (source line 881).  `0.75 * L` is
exact in binary floating point and `int()` truncates toward zero, giving
`⌊3L/4⌋`, i.e. natural-number division. -/
def peak_distance (template_len : ℕ) : ℕ := max 1 (3 * template_len / 4)

/-- One detected pulse record, mirroring the dict appended at source line
915 (`start_index`/`end_index` are its `start_idx_readings` /
`end_idx_readings`, both inclusive). -/
structure Pulse (α : Type) where
  id : ℕ
  start_index : ℕ
  end_index : ℕ
  start_time : α
  end_time : α
  similarity_score : α
deriving DecidableEq

section Assembly

variable {α : Type} [Zero α]

/-- Slice assignment `noise[p : p + m] = readings[p : p + m]` (source line
914). -/
def writeSpan (noise readings : List α) (p m : ℕ) : List α :=
  noise.take p ++ (readings.drop p).take m ++ noise.drop (p + m)

/-- The assembly loop over `enumerate(peaks_indices)` (source lines
905-915): each peak whose span fits inside the readings signal yields one
pulse record and one copied span in the noise-zeroed signal; a peak whose
span would overrun is silently skipped (its enumerate index still counts). -/
def assembleGo (readings timeAxis : List α) (template_len : ℕ) :
    List (ℕ × α) → ℕ → List α → List (Pulse α) × List α
  | [], _, noise => ([], noise)
  | (p, h) :: rest, i, noise =>
    if readings.length < p + template_len then
      assembleGo readings timeAxis template_len rest (i + 1) noise
    else
      let pu : Pulse α := ⟨i + 1, p, p + template_len - 1, timeAxis.getD p 0,
        timeAxis.getD (p + template_len - 1) 0, h⟩
      let res := assembleGo readings timeAxis template_len rest (i + 1)
        (writeSpan noise readings p template_len)
      (pu :: res.1, res.2)

/-- Pulse assembly: records plus the noise-zeroed signal
(`np.zeros_like(readings)` start, spans copied in ascending peak order). -/
def assemble_pulses (readings timeAxis : List α) (template_len : ℕ)
    (peaks : List ℕ) (heights : List α) : List (Pulse α) × List α :=
  assembleGo readings timeAxis template_len (peaks.zip heights) 0
    (List.replicate readings.length 0)

/-- The same assembly loop with the bounds check removed — used to state
that the check is unreachable for peaks coming from `find_peaks`. -/
def assembleUncheckedGo (readings timeAxis : List α) (template_len : ℕ) :
    List (ℕ × α) → ℕ → List α → List (Pulse α) × List α
  | [], _, noise => ([], noise)
  | (p, h) :: rest, i, noise =>
    let pu : Pulse α := ⟨i + 1, p, p + template_len - 1, timeAxis.getD p 0,
      timeAxis.getD (p + template_len - 1) 0, h⟩
    let res := assembleUncheckedGo readings timeAxis template_len rest (i + 1)
      (writeSpan noise readings p template_len)
    (pu :: res.1, res.2)

/-- Assembly without the per-peak bounds check. -/
def assemble_pulses_unchecked (readings timeAxis : List α) (template_len : ℕ)
    (peaks : List ℕ) (heights : List α) : List (Pulse α) × List α :=
  assembleUncheckedGo readings timeAxis template_len (peaks.zip heights) 0
    (List.replicate readings.length 0)

end Assembly

/-- The three similarity methods selectable by radio button. -/
inductive Method where
  | ncc : Method
  | cosine : Method
  | dtwMethod : Method
deriving DecidableEq

/-- The `method_name` string attached to each branch (source lines 868-872). -/
def methodName : Method → String
  | .ncc => "Normalized Cross Correlation"
  | .cosine => "Cosine Similarity"
  | .dtwMethod => "Dynamic Time Warping (Similarity)"

/-- `self.results_data` as assembled at source line 919. -/
structure AnalysisResult where
  detected_pulses : List (Pulse ℝ)
  method : String
  threshold : ℝ
  reference_length : ℕ
  total_pulses : ℕ
  timestamp : String

/-- The observable terminal states of one `run_analysis` call:
the two fail-fast validation branches (lines 848-851), the
"no valid scores" branch (line 876), the "no pulses found" branch
(line 885, which sets `results_data = None`), and a completed run
carrying `results_data`. -/
inductive RunOutcome where
  | referenceEmptyError : RunOutcome
  | referenceLongerError : RunOutcome
  | noScores : String → RunOutcome
  | noPeaks : String → ℝ → RunOutcome
  | completed : AnalysisResult → RunOutcome

/-- Embedding of `run_analysis` (source lines 842-921) for loaded signals
and an uncancelled run.  `threshold_input` is the parsed threshold text;
if it is outside `[0, 1]` the `except ValueError` handler substitutes the
default `0.7` and the analysis continues (lines 856-864).  `timestamp` is
the `datetime.now()` string read when the result record is built. -/
noncomputable def run_analysis (reference_signal readings_signal time_readings : List ℝ)
    (fastdtw_distance : List ℝ → List ℝ → ℝ) (method : Method) (threshold_input : ℝ)
    (timestamp : String) : RunOutcome :=
  if reference_signal.length = 0 then .referenceEmptyError
  else if readings_signal.length < reference_signal.length then .referenceLongerError
  else
    let template_len := reference_signal.length
    let threshold := if 0 ≤ threshold_input ∧ threshold_input ≤ 1 then threshold_input else 7 / 10
    let similarity_scores :=
      match method with
      | .ncc => normalized_cross_correlation readings_signal reference_signal
      | .cosine => calculate_cosine_similarity readings_signal reference_signal
      | .dtwMethod => calculate_dtw_similarity fastdtw_distance readings_signal reference_signal
    if similarity_scores.length = 0 then .noScores (methodName method)
    else
      let peaks_indices := find_peaks similarity_scores threshold (peak_distance template_len)
      if (peaks_indices.any fun p => p != 0) = false then .noPeaks (methodName method) threshold
      else
        let peak_heights := peaks_indices.map fun p => similarity_scores.getD p 0
        let assembled := assemble_pulses readings_signal time_readings template_len
          peaks_indices peak_heights
        .completed
          { detected_pulses := assembled.1
            method := methodName method
            threshold := threshold
            reference_length := reference_signal.length
            total_pulses := peaks_indices.length
            timestamp := timestamp }

/-- Erase the wall-clock field of a completed outcome (for stating which
parts of the result are a pure function of the inputs). -/
def stripTimestamp : RunOutcome → RunOutcome
  | .completed r => .completed { r with timestamp := "" }
  | o => o

/-- The pulse list visible to the caller (empty for non-completed
outcomes). -/
def outPulses : RunOutcome → List (Pulse ℝ)
  | .completed r => r.detected_pulses
  | _ => []

/-- Placeholder fallback-distance function for concrete runs that never
reach the oversized-input DTW branch. -/
noncomputable def zeroFast : List ℝ → List ℝ → ℝ := fun _ _ => 0

/-- The normalization heuristic exactly as claim C7 words it: always the
Euclidean-distance formula, with the `template_len` fallback only when
that distance is approximately 0 (no guard on the maximum absolute
value). -/
noncomputable def max_possible_dist_heuristic_spec (template : List ℝ) : ℝ :=
  let e := euclidean_dist (List.replicate template.length 0)
    (List.replicate template.length (maxAbs template))
  if isclose0 e then (template.length : ℝ) else e

/-- The normalization heuristic as the amended claim C7 words it: when the
template's maximum absolute value is at most `1e-9` the heuristic is
`template_len` outright; otherwise the Euclidean-distance formula with the
`template_len` fallback when that distance is approximately 0. -/
noncomputable def max_possible_dist_heuristic_amended (template : List ℝ) : ℝ :=
  if maxAbs template ≤ 1 / 10 ^ 9 then (template.length : ℝ)
  else
    let e := euclidean_dist (List.replicate template.length 0)
      (List.replicate template.length (maxAbs template))
    if isclose0 e then (template.length : ℝ) else e

section PeakLemmas

variable {α : Type} [LinearOrder α] [Inhabited α]

lemma getD_set_false (l : List Bool) (i m : ℕ) :
    (l.set i false).getD m false = if i = m then false else l.getD m false := by
  by_cases h : i = m
  · subst h
    by_cases hl : i < l.length
    · simp [List.getD_eq_getElem?_getD, List.getElem?_set, hl]
    · simp only [List.getD_eq_getElem?_getD, List.getElem?_set, if_pos rfl, if_neg hl]
      have : l[i]? = none := by
        rw [List.getElem?_eq_none_iff]; omega
      simp [this]
  · simp [List.getD_eq_getElem?_getD, List.getElem?_set, h]

lemma le_plateauEnd (x : List α) (v : α) (iMax j : ℕ) : j ≤ plateauEnd x v iMax j := by
  induction j using plateauEnd.induct x v iMax with
  | case1 j h ih => rw [plateauEnd, dif_pos h]; omega
  | case2 j h => rw [plateauEnd, dif_neg h]

lemma plateauEnd_le (x : List α) (v : α) (iMax j : ℕ) (hj : j ≤ iMax) :
    plateauEnd x v iMax j ≤ iMax := by
  induction j using plateauEnd.induct x v iMax with
  | case1 j h ih => rw [plateauEnd, dif_pos h]; exact ih (by omega)
  | case2 j h => rw [plateauEnd, dif_neg h]; exact hj

lemma lmLoop_mem_bounds (x : List α) (iMax : ℕ) :
    ∀ i, ∀ p ∈ lmLoop x iMax i, i ≤ p ∧ p < iMax := by
  intro i
  induction i using lmLoop.induct x iMax with
  | case1 i hlt hgt iAhead hpk ih =>
    intro p hp
    rw [lmLoop, dif_pos hlt, if_pos hgt] at hp
    simp only [show (if x.getD iAhead default < x.getD i default then
        (i + (iAhead - 1)) / 2 :: lmLoop x iMax (iAhead + 1)
      else lmLoop x iMax (i + 1)) = (i + (iAhead - 1)) / 2 :: lmLoop x iMax (iAhead + 1)
      from if_pos hpk, List.mem_cons] at hp
    have hle : i + 1 ≤ iAhead := le_plateauEnd x _ iMax (i + 1)
    have hub : iAhead ≤ iMax := plateauEnd_le x _ iMax (i + 1) (by omega)
    rcases hp with rfl | hp
    · omega
    · have := ih p hp
      omega
  | case2 i hlt hgt iAhead hpk ih =>
    intro p hp
    rw [lmLoop, dif_pos hlt, if_pos hgt] at hp
    simp only [show (if x.getD iAhead default < x.getD i default then
        (i + (iAhead - 1)) / 2 :: lmLoop x iMax (iAhead + 1)
      else lmLoop x iMax (i + 1)) = lmLoop x iMax (i + 1) from if_neg hpk] at hp
    have := ih p hp
    omega
  | case3 i hlt hgt ih =>
    intro p hp
    rw [lmLoop, dif_pos hlt, if_neg hgt] at hp
    have := ih p hp
    omega
  | case4 i hlt =>
    intro p hp
    rw [lmLoop, dif_neg hlt] at hp
    simp at hp

lemma lmLoop_sorted (x : List α) (iMax : ℕ) :
    ∀ i, (lmLoop x iMax i).Sorted (· < ·) := by
  intro i
  induction i using lmLoop.induct x iMax with
  | case1 i hlt hgt iAhead hpk ih =>
    rw [lmLoop, dif_pos hlt, if_pos hgt]
    simp only [show (if x.getD iAhead default < x.getD i default then
        (i + (iAhead - 1)) / 2 :: lmLoop x iMax (iAhead + 1)
      else lmLoop x iMax (i + 1)) = (i + (iAhead - 1)) / 2 :: lmLoop x iMax (iAhead + 1)
      from if_pos hpk]
    rw [List.sorted_cons]
    refine ⟨fun b hb => ?_, ih⟩
    have hle : i + 1 ≤ iAhead := le_plateauEnd x _ iMax (i + 1)
    have := lmLoop_mem_bounds x iMax (iAhead + 1) b hb
    omega
  | case2 i hlt hgt iAhead hpk ih =>
    rw [lmLoop, dif_pos hlt, if_pos hgt]
    simpa only [show (if x.getD iAhead default < x.getD i default then
        (i + (iAhead - 1)) / 2 :: lmLoop x iMax (iAhead + 1)
      else lmLoop x iMax (i + 1)) = lmLoop x iMax (i + 1) from if_neg hpk] using ih
  | case3 i hlt hgt ih =>
    rw [lmLoop, dif_pos hlt, if_neg hgt]
    exact ih
  | case4 i hlt =>
    rw [lmLoop, dif_neg hlt]
    simp

lemma local_maxima_1d_bounds (x : List α) :
    ∀ p ∈ local_maxima_1d x, 1 ≤ p ∧ p + 1 < x.length := by
  intro p hp
  have := lmLoop_mem_bounds x (x.length - 1) 1 p hp
  omega

lemma local_maxima_1d_sorted (x : List α) : (local_maxima_1d x).Sorted (· < ·) :=
  lmLoop_sorted x (x.length - 1) 1

lemma insertByPriority_perm (priority : List α) (j : ℕ) (l : List ℕ) :
    (insertByPriority priority j l).Perm (j :: l) := by
  induction l with
  | nil => simp [insertByPriority]
  | cons k rest ih =>
    rw [insertByPriority]
    split
    · exact List.Perm.refl _
    · exact ((List.perm_cons k).mpr ih).trans (List.Perm.swap j k rest)

lemma argsort_perm (priority : List α) (l : List ℕ) :
    (argsort priority l).Perm l := by
  induction l with
  | nil => exact List.Perm.refl _
  | cons j rest ih =>
    rw [argsort]
    exact (insertByPriority_perm priority j _).trans ((List.perm_cons j).mpr ih)

lemma sorted_getD_lt (peaks : List ℕ) (hsort : peaks.Sorted (· < ·)) (i j : ℕ)
    (hij : i < j) (hj : j < peaks.length) : peaks.getD i 0 < peaks.getD j 0 := by
  have hi : i < peaks.length := lt_trans hij hj
  rw [List.getD_eq_getElem?_getD, List.getD_eq_getElem?_getD,
    List.getElem?_eq_getElem hi, List.getElem?_eq_getElem hj]
  exact List.pairwise_iff_getElem.mp hsort i j hi hj hij

lemma clearLeft_false_pres (peaks : List ℕ) (d pj : ℕ) :
    ∀ k (keep : List Bool) m, keep.getD m false = false →
      (clearLeft peaks d pj k keep).getD m false = false := by
  intro k
  induction k with
  | zero =>
    intro keep m hm
    rw [clearLeft]
    split
    · rw [getD_set_false]
      split
      · rfl
      · exact hm
    · exact hm
  | succ k ih =>
    intro keep m hm
    rw [clearLeft]
    split
    · refine ih _ m ?_
      rw [getD_set_false]
      split
      · rfl
      · exact hm
    · exact hm

lemma clearRight_false_pres (peaks : List ℕ) (d pj : ℕ) :
    ∀ k (keep : List Bool) m, keep.getD m false = false →
      (clearRight peaks d pj k keep).getD m false = false := by
  intro k keep
  induction k, keep using clearRight.induct peaks d pj with
  | case1 k keep h ih =>
    intro m hm
    rw [clearRight, dif_pos h]
    refine ih m ?_
    rw [getD_set_false]
    split
    · rfl
    · exact hm
  | case2 k keep h =>
    intro m hm
    rw [clearRight, dif_neg h]
    exact hm

lemma clearLeft_clears (peaks : List ℕ) (d pj : ℕ) (hsort : peaks.Sorted (· < ·)) :
    ∀ start (keep : List Bool) k, k ≤ start → start < peaks.length →
      ((pj : ℤ) - (peaks.getD k 0 : ℤ) < (d : ℤ)) →
      (clearLeft peaks d pj start keep).getD k false = false := by
  intro start
  induction start with
  | zero =>
    intro keep k hk _ hcond
    have hk0 : k = 0 := by omega
    subst hk0
    rw [clearLeft, if_pos hcond, getD_set_false, if_pos rfl]
  | succ s ih =>
    intro keep k hk hstart hcond
    have hcondS : (pj : ℤ) - (peaks.getD (s + 1) 0 : ℤ) < (d : ℤ) := by
      rcases Nat.lt_or_ge k (s + 1) with hlt | hge
      · have := sorted_getD_lt peaks hsort k (s + 1) hlt hstart
        omega
      · have : k = s + 1 := by omega
        subst this; exact hcond
    rw [clearLeft, if_pos hcondS]
    rcases Nat.lt_or_ge k (s + 1) with hlt | hge
    · exact ih _ k (by omega) (by omega) hcond
    · have hk1 : k = s + 1 := by omega
      subst hk1
      exact clearLeft_false_pres peaks d pj s _ _ (by rw [getD_set_false, if_pos rfl])

lemma clearRight_clears (peaks : List ℕ) (d pj : ℕ) (hsort : peaks.Sorted (· < ·)) :
    ∀ start (keep : List Bool) k, start ≤ k → k < peaks.length →
      ((peaks.getD k 0 : ℤ) - (pj : ℤ) < (d : ℤ)) →
      (clearRight peaks d pj start keep).getD k false = false := by
  intro start keep
  induction start, keep using clearRight.induct peaks d pj with
  | case1 start keep h ih =>
    intro k h1 h2 h3
    rw [clearRight, dif_pos h]
    rcases Nat.lt_or_ge start k with hlt | hge
    · exact ih k (by omega) h2 h3
    · have hk1 : start = k := by omega
      subst hk1
      exact clearRight_false_pres peaks d pj _ _ _ (by rw [getD_set_false, if_pos rfl])
  | case2 start keep h =>
    intro k h1 h2 h3
    exfalso
    apply h
    constructor
    · omega
    · rcases Nat.lt_or_ge start k with hlt | hge
      · have := sorted_getD_lt peaks hsort start k hlt h2
        omega
      · have : start = k := by omega
        subst this; exact h3

lemma spdKeep1_false_pres (peaks : List ℕ) (d : ℕ) (j : ℕ) (keep : List Bool) (m : ℕ)
    (hm : keep.getD m false = false) : (spdKeep1 peaks d j keep).getD m false = false := by
  cases j with
  | zero => exact hm
  | succ j' => exact clearLeft_false_pres peaks d _ j' keep m hm

lemma spdLoop_false_pres (peaks : List ℕ) (d : ℕ) :
    ∀ (order : List ℕ) (keep : List Bool) m, keep.getD m false = false →
      (spdLoop peaks d order keep).getD m false = false := by
  intro order
  induction order with
  | nil => intro keep m hm; exact hm
  | cons j rest ih =>
    intro keep m hm
    rw [spdLoop]
    split
    · exact ih _ m (clearRight_false_pres peaks d _ _ _ m (spdKeep1_false_pres peaks d j keep m hm))
    · exact ih keep m hm

lemma spdLoop_sep (peaks : List ℕ) (d : ℕ) (hsort : peaks.Sorted (· < ·))
    (i1 i2 : ℕ) (hne : i1 ≠ i2) (h1 : i1 < peaks.length) (h2 : i2 < peaks.length)
    (hclose : |(peaks.getD i1 0 : ℤ) - (peaks.getD i2 0 : ℤ)| < (d : ℤ)) :
    ∀ (order : List ℕ) (keep : List Bool), i1 ∈ order → i2 ∈ order →
      (spdLoop peaks d order keep).getD i1 false = true →
      (spdLoop peaks d order keep).getD i2 false = true → False := by
  intro order
  induction order with
  | nil => intro keep hm1 hm2 _ _; simp at hm1
  | cons j rest ih =>
    intro keep hm1 hm2 hk1 hk2
    have step : ∀ b : ℕ, j ≠ b → j < peaks.length → b < peaks.length →
        |(peaks.getD j 0 : ℤ) - (peaks.getD b 0 : ℤ)| < (d : ℤ) →
        (spdLoop peaks d (j :: rest) keep).getD j false = true →
        (spdLoop peaks d (j :: rest) keep).getD b false = true → False := by
      intro b hab ha hb hcl hka hkb
      rw [spdLoop] at hka hkb
      by_cases hkeep : keep.getD j false = true
      · rw [if_pos hkeep] at hka hkb
        have hcleared : (clearRight peaks d (peaks.getD j 0) (j + 1)
            (spdKeep1 peaks d j keep)).getD b false = false := by
          rcases Nat.lt_or_ge b j with hba | hba
          · have hblt : (peaks.getD j 0 : ℤ) - (peaks.getD b 0 : ℤ) < (d : ℤ) := by
              have := sorted_getD_lt peaks hsort b j hba ha
              rw [abs_sub_lt_iff] at hcl
              omega
            obtain ⟨j', rfl⟩ : ∃ j', j = j' + 1 := ⟨j - 1, by omega⟩
            refine clearRight_false_pres peaks d _ _ _ _ ?_
            rw [spdKeep1]
            exact clearLeft_clears peaks d _ hsort j' keep b (by omega) (by omega) hblt
          · have hab' : j < b := by omega
            have hbgt : (peaks.getD b 0 : ℤ) - (peaks.getD j 0 : ℤ) < (d : ℤ) := by
              have := sorted_getD_lt peaks hsort j b hab' hb
              rw [abs_sub_lt_iff] at hcl
              omega
            exact clearRight_clears peaks d _ hsort (j + 1) _ b (by omega) hb hbgt
        have := spdLoop_false_pres peaks d rest _ b hcleared
        rw [this] at hkb
        exact Bool.false_ne_true hkb
      · rw [if_neg hkeep] at hka
        have hkf : keep.getD j false = false := by
          cases h : keep.getD j false
          · rfl
          · exact absurd h hkeep
        have := spdLoop_false_pres peaks d rest keep j hkf
        rw [this] at hka
        exact Bool.false_ne_true hka
    rcases List.mem_cons.mp hm1 with rfl | hr1
    · exact step i2 hne h1 h2 hclose hk1 hk2
    · rcases List.mem_cons.mp hm2 with rfl | hr2
      · exact step i1 (Ne.symm hne) h2 h1 (by rw [abs_sub_comm]; exact hclose) hk2 hk1
      · rw [spdLoop] at hk1 hk2
        by_cases hkeep : keep.getD j false = true
        · rw [if_pos hkeep] at hk1 hk2
          exact ih _ hr1 hr2 hk1 hk2
        · rw [if_neg hkeep] at hk1 hk2
          exact ih keep hr1 hr2 hk1 hk2

lemma mem_select_by_peak_distance (peaks : List ℕ) (priority : List α) (d : ℕ) (a : ℕ) :
    a ∈ select_by_peak_distance peaks priority d →
      ∃ idx, idx < peaks.length ∧ a = peaks.getD idx 0 ∧
        (spdLoop peaks d ((argsort priority (List.range peaks.length)).reverse)
          (List.replicate peaks.length true)).getD idx false = true := by
  intro ha
  rw [select_by_peak_distance] at ha
  rcases List.mem_map.mp ha with ⟨idx, hidx, rfl⟩
  rcases List.mem_filter.mp hidx with ⟨hrange, hkeep⟩
  exact ⟨idx, List.mem_range.mp hrange, rfl, hkeep⟩

lemma select_by_peak_distance_sep (peaks : List ℕ) (priority : List α) (d : ℕ)
    (hsort : peaks.Sorted (· < ·)) (a b : ℕ)
    (ha : a ∈ select_by_peak_distance peaks priority d)
    (hb : b ∈ select_by_peak_distance peaks priority d) (hne : a ≠ b) :
    (d : ℤ) ≤ |(a : ℤ) - (b : ℤ)| := by
  rcases mem_select_by_peak_distance peaks priority d a ha with ⟨ia, hia, rfl, hka⟩
  rcases mem_select_by_peak_distance peaks priority d b hb with ⟨ib, hib, rfl, hkb⟩
  have hine : ia ≠ ib := by
    intro h; subst h; exact hne rfl
  by_contra hcl
  push_neg at hcl
  refine spdLoop_sep peaks d hsort ia ib hine hia hib hcl _ _ ?_ ?_ hka hkb
  · rw [List.mem_reverse, (argsort_perm priority (List.range peaks.length)).mem_iff,
      List.mem_range]
    exact hia
  · rw [List.mem_reverse, (argsort_perm priority (List.range peaks.length)).mem_iff,
      List.mem_range]
    exact hib

lemma mem_find_peaks (x : List α) (height : α) (d : ℕ) (p : ℕ)
    (hp : p ∈ find_peaks x height d) : p ∈ local_maxima_1d x := by
  rw [find_peaks] at hp
  rcases mem_select_by_peak_distance _ _ d p hp with ⟨idx, hidx, rfl, _⟩
  have hmem : ((local_maxima_1d x).filter fun p => decide (height ≤ x.getD p default)).getD idx 0 ∈
      (local_maxima_1d x).filter fun p => decide (height ≤ x.getD p default) := by
    rw [List.getD_eq_getElem?_getD, List.getElem?_eq_getElem hidx]
    exact List.getElem_mem hidx
  exact (List.mem_filter.mp hmem).1

lemma find_peaks_interior (x : List α) (height : α) (d : ℕ) (p : ℕ)
    (hp : p ∈ find_peaks x height d) : 1 ≤ p ∧ p + 1 < x.length :=
  local_maxima_1d_bounds x p (mem_find_peaks x height d p hp)

lemma find_peaks_sep (x : List α) (height : α) (d : ℕ) (a b : ℕ)
    (ha : a ∈ find_peaks x height d) (hb : b ∈ find_peaks x height d) (hne : a ≠ b) :
    (d : ℤ) ≤ |(a : ℤ) - (b : ℤ)| := by
  rw [find_peaks] at ha hb
  refine select_by_peak_distance_sep _ _ d ?_ a b ha hb hne
  exact List.Pairwise.sublist (List.filter_sublist _) (local_maxima_1d_sorted x)

end PeakLemmas

section MetricLemmas

lemma normalized_cross_correlation_length (signal template : List ℝ)
    (h1 : 1 ≤ template.length) (h2 : template.length ≤ signal.length) :
    (normalized_cross_correlation signal template).length
      = signal.length - template.length + 1 := by
  rw [normalized_cross_correlation, if_neg (by omega)]
  dsimp only
  split
  · rw [List.length_replicate]
  · rw [List.length_map, List.length_map, List.length_range]

lemma normalized_cross_correlation_empty (signal template : List ℝ)
    (h : template.length = 0 ∨ signal.length = 0 ∨ signal.length < template.length) :
    normalized_cross_correlation signal template = [] := by
  rw [normalized_cross_correlation, if_pos h]

lemma calculate_cosine_similarity_length (signal template : List ℝ)
    (h1 : 1 ≤ template.length) (h2 : template.length ≤ signal.length) :
    (calculate_cosine_similarity signal template).length
      = signal.length - template.length + 1 := by
  rw [calculate_cosine_similarity, if_neg (by omega), List.length_map, List.length_range]

lemma calculate_cosine_similarity_empty (signal template : List ℝ)
    (h : template.length = 0 ∨ signal.length = 0 ∨ signal.length < template.length) :
    calculate_cosine_similarity signal template = [] := by
  rw [calculate_cosine_similarity, if_pos h]

lemma calculate_dtw_similarity_length (fastdtw_distance : List ℝ → List ℝ → ℝ)
    (signal template : List ℝ)
    (h1 : 1 ≤ template.length) (h2 : template.length ≤ signal.length) :
    (calculate_dtw_similarity fastdtw_distance signal template).length
      = signal.length - template.length + 1 := by
  rw [calculate_dtw_similarity, if_neg (by omega), List.length_map, List.length_range]

lemma calculate_dtw_similarity_empty (fastdtw_distance : List ℝ → List ℝ → ℝ)
    (signal template : List ℝ)
    (h : template.length = 0 ∨ signal.length = 0 ∨ signal.length < template.length) :
    calculate_dtw_similarity fastdtw_distance signal template = [] := by
  rw [calculate_dtw_similarity, if_pos h]

lemma clip_bounds (v : ℝ) : -1 ≤ clip v ∧ clip v ≤ 1 := by
  constructor
  · exact le_min (by norm_num) (le_max_right v (-1))
  · exact min_le_left 1 _

lemma normalized_cross_correlation_bounds (signal template : List ℝ) :
    ∀ x ∈ normalized_cross_correlation signal template, -1 ≤ x ∧ x ≤ 1 := by
  intro x hx
  rw [normalized_cross_correlation] at hx
  split at hx
  · simp at hx
  · dsimp only at hx
    split at hx
    · rw [List.eq_of_mem_replicate hx]
      norm_num
    · rcases List.mem_map.mp hx with ⟨y, _, rfl⟩
      exact clip_bounds y

lemma dot_eq_sum (a : List ℝ) : ∀ b : List ℝ,
    dot a b = ∑ i ∈ Finset.range (min a.length b.length), a.getD i 0 * b.getD i 0 := by
  induction a with
  | nil => intro b; simp [dot]
  | cons x xs ih =>
    intro b
    cases b with
    | nil => simp [dot]
    | cons y ys =>
      have hlen : min (x :: xs).length (y :: ys).length = min xs.length ys.length + 1 := by
        simp [Nat.succ_min_succ]
      rw [hlen, Finset.sum_range_succ']
      simp only [List.getD_cons_succ, List.getD_cons_zero]
      have : dot (x :: xs) (y :: ys) = x * y + dot xs ys := by
        simp [dot]
      rw [this, ih ys]
      ring

lemma sumSq_eq_sum (a : List ℝ) :
    sumSq a = ∑ i ∈ Finset.range a.length, (a.getD i 0) ^ 2 := by
  induction a with
  | nil => simp [sumSq]
  | cons x xs ih =>
    rw [show (x :: xs).length = xs.length + 1 from rfl, Finset.sum_range_succ']
    simp only [List.getD_cons_succ, List.getD_cons_zero]
    have : sumSq (x :: xs) = x ^ 2 + sumSq xs := by
      simp [sumSq]
    rw [this, ih]
    ring

lemma sumSq_nonneg (a : List ℝ) : 0 ≤ sumSq a := by
  rw [sumSq_eq_sum]
  exact Finset.sum_nonneg fun i _ => sq_nonneg _

lemma dot_sq_le (a b : List ℝ) : (dot a b) ^ 2 ≤ sumSq a * sumSq b := by
  rw [dot_eq_sum, sumSq_eq_sum, sumSq_eq_sum]
  refine le_trans (Finset.sum_mul_sq_le_sq_mul_sq _ _ _) ?_
  refine mul_le_mul ?_ ?_ (Finset.sum_nonneg fun i _ => sq_nonneg _)
    (Finset.sum_nonneg fun i _ => sq_nonneg _)
  · exact Finset.sum_le_sum_of_subset_of_nonneg
      (Finset.range_subset.mpr (min_le_left _ _)) (fun i _ _ => sq_nonneg _)
  · exact Finset.sum_le_sum_of_subset_of_nonneg
      (Finset.range_subset.mpr (min_le_right _ _)) (fun i _ _ => sq_nonneg _)

lemma cosine_score_bounds (w t : List ℝ) :
    -1 ≤ dot w t / (l2norm w * l2norm t) ∧ dot w t / (l2norm w * l2norm t) ≤ 1 := by
  rcases eq_or_ne (l2norm w * l2norm t) 0 with h0 | h0
  · rw [h0, div_zero]
    norm_num
  · have hpos : 0 < l2norm w * l2norm t :=
      lt_of_le_of_ne (mul_nonneg (Real.sqrt_nonneg _) (Real.sqrt_nonneg _)) (Ne.symm h0)
    have habs : |dot w t| ≤ l2norm w * l2norm t := by
      rw [l2norm, l2norm, ← Real.sqrt_mul (sumSq_nonneg w)]
      refine (Real.le_sqrt (abs_nonneg _) ?_).mpr ?_
      · exact mul_nonneg (sumSq_nonneg w) (sumSq_nonneg t)
      · rw [sq_abs]
        exact dot_sq_le w t
    have hq : |dot w t / (l2norm w * l2norm t)| ≤ 1 := by
      rw [abs_div, abs_of_pos hpos, div_le_one hpos]
      exact habs
    exact abs_le.mp hq

lemma calculate_cosine_similarity_bounds (signal template : List ℝ) :
    ∀ x ∈ calculate_cosine_similarity signal template, -1 ≤ x ∧ x ≤ 1 := by
  intro x hx
  rw [calculate_cosine_similarity] at hx
  split at hx
  · simp at hx
  · rcases List.mem_map.mp hx with ⟨i, _, rfl⟩
    exact cosine_score_bounds _ template

lemma dtwRow0_nonneg (x y : List ℝ) : ∀ j, 0 ≤ dtwRow0 x y j := by
  intro j
  induction j with
  | zero => exact abs_nonneg _
  | succ j ih => exact add_nonneg ih (abs_nonneg _)

lemma dtwNextRow_nonneg (x y : List ℝ) (i : ℕ) (prev : ℕ → ℝ)
    (hprev : ∀ j, 0 ≤ prev j) : ∀ j, 0 ≤ dtwNextRow x y i prev j := by
  intro j
  induction j with
  | zero => exact add_nonneg (hprev 0) (abs_nonneg _)
  | succ j ih =>
    refine le_min (le_min ?_ ?_) ?_
    · exact add_nonneg (hprev j) (mul_nonneg (by norm_num) (abs_nonneg _))
    · exact add_nonneg (hprev (j + 1)) (abs_nonneg _)
    · exact add_nonneg ih (abs_nonneg _)

lemma dtwMatrix_nonneg (x y : List ℝ) : ∀ i j, 0 ≤ dtwMatrix x y i j := by
  intro i
  induction i with
  | zero => exact dtwRow0_nonneg x y
  | succ i ih => exact dtwNextRow_nonneg x y (i + 1) _ ih

lemma dtwDistance_nonneg (x y : List ℝ) : 0 ≤ dtwDistance x y :=
  dtwMatrix_nonneg x y _ _

lemma max_possible_dist_heuristic_nonneg (template : List ℝ) :
    0 ≤ max_possible_dist_heuristic template := by
  rw [max_possible_dist_heuristic]
  split
  · dsimp only
    split
    · exact Nat.cast_nonneg _
    · exact Real.sqrt_nonneg _
  · exact Nat.cast_nonneg _

lemma dtw_window_similarity_bounds (H d : ℝ) (hH : 0 ≤ H) (hd : 0 ≤ d) :
    0 ≤ dtw_window_similarity H d ∧ dtw_window_similarity H d ≤ 1 := by
  rw [dtw_window_similarity]
  split
  · split <;> norm_num
  · rename_i hnc
    have hHpos : 0 < H := by
      rw [isclose0, abs_of_nonneg hH, not_le] at hnc
      linarith
    constructor
    · exact le_max_left 0 _
    · refine max_le (by norm_num) ?_
      have : 0 ≤ min (d / H) 1 := le_min (div_nonneg hd hHpos.le) zero_le_one
      linarith

lemma calculate_dtw_similarity_bounds (fastdtw_distance : List ℝ → List ℝ → ℝ)
    (hfast : ∀ a b, 0 ≤ fastdtw_distance a b) (signal template : List ℝ) :
    ∀ x ∈ calculate_dtw_similarity fastdtw_distance signal template, 0 ≤ x ∧ x ≤ 1 := by
  intro x hx
  rw [calculate_dtw_similarity] at hx
  split at hx
  · simp at hx
  · rcases List.mem_map.mp hx with ⟨i, _, rfl⟩
    refine dtw_window_similarity_bounds _ _ (max_possible_dist_heuristic_nonneg template) ?_
    rw [dtw_window_distance]
    split
    · exact hfast _ _
    · exact dtwDistance_nonneg _ _

lemma heuristic_eq_amended (template : List ℝ) :
    max_possible_dist_heuristic template = max_possible_dist_heuristic_amended template := by
  rw [max_possible_dist_heuristic, max_possible_dist_heuristic_amended]
  by_cases h : 1 / 10 ^ 9 < maxAbs template
  · rw [if_pos h, if_neg (not_le.mpr h)]
  · rw [if_neg h, if_pos (not_lt.mp h)]

lemma calculate_dtw_similarity_getD (fastdtw_distance : List ℝ → List ℝ → ℝ)
    (signal template : List ℝ) (h1 : 1 ≤ template.length)
    (h2 : template.length ≤ signal.length) (i : ℕ)
    (hi : i < signal.length - template.length + 1) :
    (calculate_dtw_similarity fastdtw_distance signal template).getD i 0
      = dtw_window_similarity (max_possible_dist_heuristic_amended template)
          (dtw_window_distance fastdtw_distance signal template i) := by
  rw [calculate_dtw_similarity, if_neg (by omega), ← heuristic_eq_amended]
  rw [List.getD_eq_getElem?_getD, List.getElem?_map, List.getElem?_range hi]
  rfl

end MetricLemmas

section NumericHelpers

lemma not_isclose0_of_sq (x : ℝ) (hx : 0 ≤ x) (hsq : 1 / 10 ^ 16 < x ^ 2) : ¬ isclose0 x := by
  rw [isclose0, abs_of_nonneg hx, not_le]
  nlinarith

lemma not_isclose0_sqrt (a : ℝ) (ha : 1 / 10 ^ 16 < a) : ¬ isclose0 (Real.sqrt a) := by
  refine not_isclose0_of_sq _ (Real.sqrt_nonneg a) ?_
  rw [Real.sq_sqrt (le_of_lt (lt_trans (by norm_num) ha))]
  exact ha

lemma not_isclose0_mul_sqrt (c a b : ℝ) (hc : 0 ≤ c) (ha : 0 ≤ a) (hb : 0 ≤ b)
    (h : 1 / 10 ^ 16 < c ^ 2 * (a * b)) :
    ¬ isclose0 (c * Real.sqrt a * Real.sqrt b) := by
  refine not_isclose0_of_sq _ (by positivity) ?_
  have he : (c * Real.sqrt a * Real.sqrt b) ^ 2 = c ^ 2 * (a * b) := by
    rw [mul_pow, mul_pow, Real.sq_sqrt ha, Real.sq_sqrt hb]; ring
  rw [he]
  exact h

lemma clip_lt_one (x : ℝ) (hx : x < 1) : clip x < 1 :=
  lt_of_le_of_lt (min_le_right _ _) (max_lt hx (by norm_num))

lemma sqrt_eval (a b : ℝ) (hb : 0 ≤ b) (h : a = b ^ 2) : Real.sqrt a = b := by
  rw [h, Real.sqrt_sq hb]

lemma l2norm_eval (v : List ℝ) (b : ℝ) (hb : 0 ≤ b) (h : sumSq v = b ^ 2) : l2norm v = b := by
  rw [l2norm, h, Real.sqrt_sq hb]

lemma npStd_123 : npStd [(1 : ℝ), 2, 3] = Real.sqrt (2 / 3) := by
  norm_num [npStd, npVar, npMean]

lemma npStd_001 : npStd [(0 : ℝ), 0, 1] = Real.sqrt (2 / 9) := by
  norm_num [npStd, npVar, npMean]

lemma npStd_012 : npStd [(0 : ℝ), 1, 2] = Real.sqrt (2 / 3) := by
  norm_num [npStd, npVar, npMean]

lemma npStd_230 : npStd [(2 : ℝ), 3, 0] = Real.sqrt (14 / 9) := by
  norm_num [npStd, npVar, npMean]

lemma npStd_300 : npStd [(3 : ℝ), 0, 0] = Real.sqrt 2 := by
  norm_num [npStd, npVar, npMean]

end NumericHelpers

section ScenarioEval

lemma ncc_scenario_eval :
    normalized_cross_correlation [0, 0, 1, 2, 3, 0, 0] [1, 2, 3] =
      [clip (1 / (3 * Real.sqrt (2 / 9) * Real.sqrt (2 / 3))), 1, 1,
       clip ((-2) / (3 * Real.sqrt (14 / 9) * Real.sqrt (2 / 3))),
       clip ((-3) / (3 * Real.sqrt 2 * Real.sqrt (2 / 3)))] := by
  rw [normalized_cross_correlation, if_neg (by norm_num)]
  dsimp only
  rw [npStd_123, if_neg (not_isclose0_sqrt _ (by norm_num))]
  rw [show (([(0:ℝ), 0, 1, 2, 3, 0, 0].length - [(1:ℝ), 2, 3].length + 1) : ℕ) = 5 from rfl]
  rw [show List.range 5 = [0, 1, 2, 3, 4] from rfl]
  simp only [List.map_cons, List.map_nil]
  rw [show ((([(1:ℝ), 2, 3].length : ℕ)) : ℝ) = 3 from by norm_num]
  refine List.cons_eq_cons.mpr ⟨?_, List.cons_eq_cons.mpr ⟨?_, List.cons_eq_cons.mpr ⟨?_,
    List.cons_eq_cons.mpr ⟨?_, List.cons_eq_cons.mpr ⟨?_, rfl⟩⟩⟩⟩⟩
  · rw [show List.take [(1:ℝ), 2, 3].length (List.drop 0 ([0, 0, 1, 2, 3, 0, 0] : List ℝ))
        = [0, 0, 1] from rfl]
    rw [npStd_001, if_neg (not_isclose0_sqrt _ (by norm_num)),
      if_neg (not_isclose0_mul_sqrt 3 (2/9) (2/3) (by norm_num) (by norm_num) (by norm_num)
        (by norm_num))]
    congr 1
    congr 1
    norm_num [dot, npMean]
  · rw [show List.take [(1:ℝ), 2, 3].length (List.drop 1 ([0, 0, 1, 2, 3, 0, 0] : List ℝ))
        = [0, 1, 2] from rfl]
    rw [npStd_012, if_neg (not_isclose0_sqrt _ (by norm_num)),
      if_neg (not_isclose0_mul_sqrt 3 (2/3) (2/3) (by norm_num) (by norm_num) (by norm_num)
        (by norm_num))]
    have hden : (3 : ℝ) * Real.sqrt (2/3) * Real.sqrt (2/3) = 2 := by
      rw [mul_assoc, Real.mul_self_sqrt (by norm_num)]
      norm_num
    have hnum : dot (List.map (fun v => v - npMean [0, 1, 2]) [0, 1, 2])
        [1 - npMean [1, 2, 3], 2 - npMean [1, 2, 3], 3 - npMean [1, 2, 3]] = 2 := by
      norm_num [dot, npMean]
    rw [hden, hnum]
    norm_num [clip]
  · rw [show List.take [(1:ℝ), 2, 3].length (List.drop 2 ([0, 0, 1, 2, 3, 0, 0] : List ℝ))
        = [1, 2, 3] from rfl]
    rw [npStd_123, if_neg (not_isclose0_sqrt _ (by norm_num)),
      if_neg (not_isclose0_mul_sqrt 3 (2/3) (2/3) (by norm_num) (by norm_num) (by norm_num)
        (by norm_num))]
    have hden : (3 : ℝ) * Real.sqrt (2/3) * Real.sqrt (2/3) = 2 := by
      rw [mul_assoc, Real.mul_self_sqrt (by norm_num)]
      norm_num
    have hnum : dot (List.map (fun v => v - npMean [1, 2, 3]) [1, 2, 3])
        [1 - npMean [1, 2, 3], 2 - npMean [1, 2, 3], 3 - npMean [1, 2, 3]] = 2 := by
      norm_num [dot, npMean]
    rw [hden, hnum]
    norm_num [clip]
  · rw [show List.take [(1:ℝ), 2, 3].length (List.drop 3 ([0, 0, 1, 2, 3, 0, 0] : List ℝ))
        = [2, 3, 0] from rfl]
    rw [npStd_230, if_neg (not_isclose0_sqrt _ (by norm_num)),
      if_neg (not_isclose0_mul_sqrt 3 (14/9) (2/3) (by norm_num) (by norm_num) (by norm_num)
        (by norm_num))]
    congr 1
    congr 1
    norm_num [dot, npMean]
  · rw [show List.take [(1:ℝ), 2, 3].length (List.drop 4 ([0, 0, 1, 2, 3, 0, 0] : List ℝ))
        = [3, 0, 0] from rfl]
    rw [npStd_300, if_neg (not_isclose0_sqrt _ (by norm_num)),
      if_neg (not_isclose0_mul_sqrt 3 2 (2/3) (by norm_num) (by norm_num) (by norm_num)
        (by norm_num))]
    congr 1
    congr 1
    norm_num [dot, npMean]

lemma select_singleton {α : Type} [LinearOrder α] [Inhabited α] (p : ℕ) (h : α) (d : ℕ) :
    select_by_peak_distance [p] [h] d = [p] := by
  simp only [select_by_peak_distance, List.length_singleton]
  rw [show List.range 1 = [0] from rfl]
  rw [show argsort [h] [0] = [0] from rfl]
  rw [show ([0] : List ℕ).reverse = [0] from rfl]
  rw [spdLoop, if_pos (show (List.replicate 1 true).getD 0 false = true from rfl)]
  rw [show spdKeep1 [p] d 0 (List.replicate 1 true) = List.replicate 1 true from rfl]
  rw [clearRight, dif_neg (by simp)]
  rw [spdLoop]
  simp [List.filter]

lemma find_peaks_5 (a b c th : ℝ) (ha : a < 1) (hb : b < 1) (hth : th ≤ 1) (d : ℕ) :
    find_peaks [a, 1, 1, b, c] th d = [1] := by
  rw [find_peaks]
  have hlm : local_maxima_1d [a, 1, 1, b, c] = [1] := by
    rw [local_maxima_1d]
    rw [show ([a, 1, 1, b, c].length - 1) = 4 from rfl]
    rw [lmLoop, dif_pos (show 1 < 4 by norm_num)]
    rw [show [a, 1, 1, b, c].getD (1 - 1) default = a from rfl,
      show [a, 1, 1, b, c].getD 1 default = 1 from rfl]
    rw [if_pos ha]
    have hpe : plateauEnd [a, 1, 1, b, c] 1 4 2 = 3 := by
      rw [plateauEnd, dif_pos ⟨by norm_num, show [a, 1, 1, b, c].getD 2 default = 1 from rfl⟩]
      rw [plateauEnd, dif_neg]
      rintro ⟨-, h3⟩
      rw [show [a, 1, 1, b, c].getD 3 default = b from rfl] at h3
      exact absurd h3 (ne_of_lt hb)
    rw [hpe]
    dsimp only
    rw [show [a, 1, 1, b, c].getD 3 default = b from rfl]
    rw [if_pos hb]
    rw [show ((1 + (3 - 1)) / 2 : ℕ) = 1 from rfl]
    rw [lmLoop, dif_neg (by norm_num)]
  rw [hlm]
  rw [show ([1] : List ℕ).filter (fun p => decide (th ≤ [a, 1, 1, b, c].getD p default))
      = [1] from by
    refine List.filter_cons_of_pos ?_
    rw [show [a, 1, 1, b, c].getD 1 default = 1 from rfl]
    exact decide_eq_true hth]
  rw [show List.map (fun p => [a, 1, 1, b, c].getD p default) [1] = [1] from rfl]
  exact select_singleton 1 1 d

lemma find_peaks_4 (a b c th : ℝ) (ha : a < 1) (hb : b < 1) (hth : th ≤ 1) (d : ℕ) :
    find_peaks [a, 1, b, c] th d = [1] := by
  rw [find_peaks]
  have hlm : local_maxima_1d [a, 1, b, c] = [1] := by
    rw [local_maxima_1d]
    rw [show ([a, 1, b, c].length - 1) = 3 from rfl]
    rw [lmLoop, dif_pos (show 1 < 3 by norm_num)]
    rw [show [a, 1, b, c].getD (1 - 1) default = a from rfl,
      show [a, 1, b, c].getD 1 default = 1 from rfl]
    rw [if_pos ha]
    have hpe : plateauEnd [a, 1, b, c] 1 3 2 = 2 := by
      rw [plateauEnd, dif_neg]
      rintro ⟨-, h2⟩
      rw [show [a, 1, b, c].getD 2 default = b from rfl] at h2
      exact absurd h2 (ne_of_lt hb)
    rw [hpe]
    dsimp only
    rw [show [a, 1, b, c].getD 2 default = b from rfl]
    rw [if_pos hb]
    rw [show ((1 + (2 - 1)) / 2 : ℕ) = 1 from rfl]
    rw [lmLoop, dif_neg (by norm_num)]
  rw [hlm]
  rw [show ([1] : List ℕ).filter (fun p => decide (th ≤ [a, 1, b, c].getD p default))
      = [1] from by
    refine List.filter_cons_of_pos ?_
    rw [show [a, 1, b, c].getD 1 default = 1 from rfl]
    exact decide_eq_true hth]
  rw [show List.map (fun p => [a, 1, b, c].getD p default) [1] = [1] from rfl]
  exact select_singleton 1 1 d

lemma find_peaks_2 (x0 x1 th : ℝ) (d : ℕ) : find_peaks [x0, x1] th d = [] := by
  rw [find_peaks]
  have hlm : local_maxima_1d [x0, x1] = [] := by
    rw [local_maxima_1d, show ([x0, x1].length - 1) = 1 from rfl, lmLoop,
      dif_neg (by norm_num)]
  rw [hlm]
  rw [show (([] : List ℕ).filter fun p => decide (th ≤ [x0, x1].getD p default)) = [] from rfl]
  simp [select_by_peak_distance, spdLoop, argsort]

lemma cosine_scenario_eval :
    calculate_cosine_similarity [0, 3, 4, 0, 0] [3, 4] = [4 / 5, 1, 3 / 5, 0] := by
  rw [calculate_cosine_similarity, if_neg (by norm_num)]
  rw [show (([(0:ℝ), 3, 4, 0, 0].length - [(3:ℝ), 4].length + 1) : ℕ) = 4 from rfl]
  rw [show List.range 4 = [0, 1, 2, 3] from rfl]
  simp only [List.map_cons, List.map_nil]
  have ht : l2norm [(3:ℝ), 4] = 5 := l2norm_eval _ 5 (by norm_num) (by norm_num [sumSq])
  refine List.cons_eq_cons.mpr ⟨?_, List.cons_eq_cons.mpr ⟨?_, List.cons_eq_cons.mpr ⟨?_,
    List.cons_eq_cons.mpr ⟨?_, rfl⟩⟩⟩⟩
  · rw [show List.take [(3:ℝ), 4].length (List.drop 0 ([0, 3, 4, 0, 0] : List ℝ))
        = [0, 3] from rfl]
    rw [l2norm_eval [(0:ℝ), 3] 3 (by norm_num) (by norm_num [sumSq]), ht]
    norm_num [dot]
  · rw [show List.take [(3:ℝ), 4].length (List.drop 1 ([0, 3, 4, 0, 0] : List ℝ))
        = [3, 4] from rfl]
    rw [ht]
    norm_num [dot]
  · rw [show List.take [(3:ℝ), 4].length (List.drop 2 ([0, 3, 4, 0, 0] : List ℝ))
        = [4, 0] from rfl]
    rw [l2norm_eval [(4:ℝ), 0] 4 (by norm_num) (by norm_num [sumSq]), ht]
    norm_num [dot]
  · rw [show List.take [(3:ℝ), 4].length (List.drop 3 ([0, 3, 4, 0, 0] : List ℝ))
        = [0, 0] from rfl]
    rw [l2norm_eval [(0:ℝ), 0] 0 (by norm_num) (by norm_num [sumSq]), ht]
    norm_num [dot]

lemma normalized_cross_correlation_flat (signal template : List ℝ)
    (h1 : 1 ≤ template.length) (h2 : template.length ≤ signal.length)
    (hflat : isclose0 (npStd template)) :
    normalized_cross_correlation signal template
      = List.replicate (signal.length - template.length + 1) 0 := by
  rw [normalized_cross_correlation, if_neg (by omega)]
  dsimp only
  rw [if_pos hflat]

lemma npStd_11 : npStd [(1 : ℝ), 1] = 0 := by
  norm_num [npStd, npVar, npMean]

lemma isclose0_zero : isclose0 0 := by
  norm_num [isclose0]

lemma ncc_nonflat_zero_eval :
    normalized_cross_correlation [5, 5, 5] [0, 1] = [0, 0] := by
  rw [normalized_cross_correlation, if_neg (by norm_num)]
  dsimp only
  rw [show npStd [(0:ℝ), 1] = Real.sqrt (1/4) from by norm_num [npStd, npVar, npMean]]
  rw [if_neg (not_isclose0_sqrt _ (by norm_num))]
  rw [show (([(5:ℝ), 5, 5].length - [(0:ℝ), 1].length + 1) : ℕ) = 2 from rfl]
  rw [show List.range 2 = [0, 1] from rfl]
  simp only [List.map_cons, List.map_nil]
  rw [show List.take [(0:ℝ), 1].length (List.drop 0 ([5, 5, 5] : List ℝ)) = [5, 5] from rfl,
    show List.take [(0:ℝ), 1].length (List.drop 1 ([5, 5, 5] : List ℝ)) = [5, 5] from rfl]
  rw [show npStd [(5:ℝ), 5] = 0 from by norm_num [npStd, npVar, npMean]]
  simp only [if_pos isclose0_zero]
  norm_num [clip]

end ScenarioEval

section RunEval

lemma run_c1_eval (ts : String) (f : List ℝ → List ℝ → ℝ) :
    run_analysis [1, 2, 3] [0, 0, 1, 2, 3, 0, 0] [0, 1, 2, 3, 4, 5, 6] f .ncc (9 / 10) ts
      = .completed ⟨[⟨1, 1, 3, 1, 3, 1⟩], "Normalized Cross Correlation", 9 / 10, 3, 1, ts⟩ := by
  rw [run_analysis, if_neg (by norm_num), if_neg (by norm_num)]
  dsimp only
  rw [if_pos (show (0:ℝ) ≤ 9/10 ∧ (9:ℝ)/10 ≤ 1 from by norm_num)]
  rw [ncc_scenario_eval]
  rw [if_neg (by norm_num)]
  rw [show peak_distance ([(1:ℝ), 2, 3].length) = 2 from rfl]
  have hA : (1 : ℝ) / (3 * Real.sqrt (2/9) * Real.sqrt (2/3)) < 1 := by
    rw [mul_assoc, ← Real.sqrt_mul (by norm_num)]
    have h1 : (1:ℝ)/3 < Real.sqrt (2/9 * (2/3)) := by
      rw [show (2:ℝ)/9 * (2/3) = 4/27 by norm_num]
      exact (Real.lt_sqrt (by norm_num)).mpr (by norm_num)
    have h2 : (0:ℝ) < Real.sqrt (2/9 * (2/3)) := lt_trans (by norm_num) h1
    rw [div_lt_one (by linarith)]
    linarith
  have hB : (-2 : ℝ) / (3 * Real.sqrt (14/9) * Real.sqrt (2/3)) < 1 := by
    have hpos : (0:ℝ) < 3 * Real.sqrt (14/9) * Real.sqrt (2/3) := by positivity
    have := div_neg_of_neg_of_pos (show (-2:ℝ) < 0 by norm_num) hpos
    linarith
  rw [find_peaks_5 _ _ _ _ (clip_lt_one _ hA) (clip_lt_one _ hB) (by norm_num) 2]
  rw [show (([1] : List ℕ).any fun p => p != 0) = true from rfl]
  rw [if_neg (by simp)]
  rw [show List.map (fun p => [clip (1 / (3 * Real.sqrt (2 / 9) * Real.sqrt (2 / 3))), 1, 1,
       clip ((-2) / (3 * Real.sqrt (14 / 9) * Real.sqrt (2 / 3))),
       clip ((-3) / (3 * Real.sqrt 2 * Real.sqrt (2 / 3)))].getD p 0) [1] = [1] from rfl]
  rw [show (assemble_pulses ([0, 0, 1, 2, 3, 0, 0] : List ℝ) [0, 1, 2, 3, 4, 5, 6]
      ([(1:ℝ), 2, 3].length) [1] [1]).1 = [⟨1, 1, 3, 1, 3, 1⟩] from rfl]
  rfl

lemma run_c2_eval (ts : String) (f : List ℝ → List ℝ → ℝ) :
    run_analysis [1, 1] [0, 0, 0] [0, 1, 2] f .ncc (3 / 2) ts
      = .noPeaks "Normalized Cross Correlation" (7 / 10) := by
  rw [run_analysis, if_neg (by norm_num), if_neg (by norm_num)]
  dsimp only
  rw [if_neg (show ¬ ((0:ℝ) ≤ 3/2 ∧ (3:ℝ)/2 ≤ 1) from by norm_num)]
  rw [normalized_cross_correlation_flat [0, 0, 0] [1, 1] (by norm_num) (by norm_num)
    (by rw [npStd_11]; exact isclose0_zero)]
  rw [show List.replicate (([(0:ℝ), 0, 0].length - [(1:ℝ), 1].length + 1) : ℕ) (0:ℝ)
      = [0, 0] from rfl]
  rw [if_neg (by norm_num)]
  rw [show peak_distance ([(1:ℝ), 1].length) = 1 from rfl]
  rw [find_peaks_2 0 0 (7/10) 1]
  rw [show (([] : List ℕ).any fun p => p != 0) = false from rfl]
  rw [if_pos rfl]
  rfl

lemma run_c5_flat_eval (ts : String) (f : List ℝ → List ℝ → ℝ) :
    run_analysis [1, 1] [5, 5, 5] [0, 1, 2] f .ncc (1 / 2) ts
      = .noPeaks "Normalized Cross Correlation" (1 / 2) := by
  rw [run_analysis, if_neg (by norm_num), if_neg (by norm_num)]
  dsimp only
  rw [if_pos (show (0:ℝ) ≤ 1/2 ∧ (1:ℝ)/2 ≤ 1 from by norm_num)]
  rw [normalized_cross_correlation_flat [5, 5, 5] [1, 1] (by norm_num) (by norm_num)
    (by rw [npStd_11]; exact isclose0_zero)]
  rw [show List.replicate (([(5:ℝ), 5, 5].length - [(1:ℝ), 1].length + 1) : ℕ) (0:ℝ)
      = [0, 0] from rfl]
  rw [if_neg (by norm_num)]
  rw [show peak_distance ([(1:ℝ), 1].length) = 1 from rfl]
  rw [find_peaks_2 0 0 (1/2) 1]
  rw [show (([] : List ℕ).any fun p => p != 0) = false from rfl]
  rw [if_pos rfl]
  rfl

lemma run_c5_nonflat_eval (ts : String) (f : List ℝ → List ℝ → ℝ) :
    run_analysis [0, 1] [5, 5, 5] [0, 1, 2] f .ncc (1 / 2) ts
      = .noPeaks "Normalized Cross Correlation" (1 / 2) := by
  rw [run_analysis, if_neg (by norm_num), if_neg (by norm_num)]
  dsimp only
  rw [if_pos (show (0:ℝ) ≤ 1/2 ∧ (1:ℝ)/2 ≤ 1 from by norm_num)]
  rw [ncc_nonflat_zero_eval]
  rw [if_neg (by norm_num)]
  rw [show peak_distance ([(0:ℝ), 1].length) = 1 from rfl]
  rw [find_peaks_2 0 0 (1/2) 1]
  rw [show (([] : List ℕ).any fun p => p != 0) = false from rfl]
  rw [if_pos rfl]
  rfl

lemma run_c3_eval (ts : String) (f : List ℝ → List ℝ → ℝ) :
    run_analysis [3, 4] [0, 3, 4, 0, 0] [0, 1, 2, 3, 4] f .cosine (9 / 10) ts
      = .completed ⟨[⟨1, 1, 2, 1, 2, 1⟩], "Cosine Similarity", 9 / 10, 2, 1, ts⟩ := by
  rw [run_analysis, if_neg (by norm_num), if_neg (by norm_num)]
  dsimp only
  rw [if_pos (show (0:ℝ) ≤ 9/10 ∧ (9:ℝ)/10 ≤ 1 from by norm_num)]
  rw [cosine_scenario_eval]
  rw [if_neg (by norm_num)]
  rw [show peak_distance ([(3:ℝ), 4].length) = 1 from rfl]
  rw [find_peaks_4 (4/5) (3/5) 0 (9/10) (by norm_num) (by norm_num) (by norm_num) 1]
  rw [show (([1] : List ℕ).any fun p => p != 0) = true from rfl]
  rw [if_neg (by simp)]
  rw [show List.map (fun p => ([4 / 5, 1, 3 / 5, 0] : List ℝ).getD p 0) [1] = [1] from rfl]
  rw [show (assemble_pulses ([0, 3, 4, 0, 0] : List ℝ) [0, 1, 2, 3, 4]
      ([(3:ℝ), 4].length) [1] [1]).1 = [⟨1, 1, 2, 1, 2, 1⟩] from rfl]
  rfl

lemma run_analysis_strip (reference readings timeAxis : List ℝ)
    (f : List ℝ → List ℝ → ℝ) (m : Method) (th : ℝ) (ts1 ts2 : String) :
    stripTimestamp (run_analysis reference readings timeAxis f m th ts1)
      = stripTimestamp (run_analysis reference readings timeAxis f m th ts2) := by
  cases m
  all_goals
    rw [run_analysis, run_analysis]
    by_cases hre : reference.length = 0
    · rw [if_pos hre, if_pos hre]
    · rw [if_neg hre, if_neg hre]
      by_cases hrl : readings.length < reference.length
      · rw [if_pos hrl, if_pos hrl]
      · rw [if_neg hrl, if_neg hrl]
        dsimp only
        split
        · rfl
        · split
          all_goals split
          all_goals rfl

lemma run_analysis_threshold_default (reference readings timeAxis : List ℝ)
    (f : List ℝ → List ℝ → ℝ) (m : Method) (th : ℝ) (ts : String)
    (hth : ¬ (0 ≤ th ∧ th ≤ 1)) :
    run_analysis reference readings timeAxis f m th ts
      = run_analysis reference readings timeAxis f m (7 / 10) ts := by
  cases m
  all_goals
    rw [run_analysis, run_analysis]
    by_cases hre : reference.length = 0
    · rw [if_pos hre, if_pos hre]
    · rw [if_neg hre, if_neg hre]
      by_cases hrl : readings.length < reference.length
      · rw [if_pos hrl, if_pos hrl]
      · rw [if_neg hrl, if_neg hrl]
        rw [if_neg hth, if_pos (show (0:ℝ) ≤ 7/10 ∧ (7:ℝ)/10 ≤ 1 from by norm_num)]

end RunEval

section AssemblyLemmas

variable {α : Type} [Zero α]

lemma assembleGo_eq_unchecked (readings timeAxis : List α) (template_len : ℕ) :
    ∀ (l : List (ℕ × α)) (i : ℕ) (noise : List α),
      (∀ q ∈ l, q.1 + template_len ≤ readings.length) →
      assembleGo readings timeAxis template_len l i noise
        = assembleUncheckedGo readings timeAxis template_len l i noise := by
  intro l
  induction l with
  | nil => intro i noise _; rfl
  | cons q rest ih =>
    intro i noise hb
    obtain ⟨p, h⟩ := q
    rw [assembleGo, assembleUncheckedGo]
    rw [if_neg (by
      have hq := hb (p, h) (List.mem_cons_self _ _)
      dsimp only at hq
      omega)]
    dsimp only
    rw [ih (i + 1) _ fun q hq => hb q (List.mem_cons_of_mem _ hq)]

lemma assembleUncheckedGo_length (readings timeAxis : List α) (template_len : ℕ) :
    ∀ (l : List (ℕ × α)) (i : ℕ) (noise : List α),
      (assembleUncheckedGo readings timeAxis template_len l i noise).1.length = l.length := by
  intro l
  induction l with
  | nil => intro i noise; rfl
  | cons q rest ih =>
    intro i noise
    obtain ⟨p, h⟩ := q
    rw [assembleUncheckedGo]
    dsimp only
    rw [List.length_cons, ih]
    rfl

end AssemblyLemmas

section MoreHelpers

lemma peak_distance_eq_floor (L : ℕ) :
    (peak_distance L : ℤ) = max 1 ⌊(L : ℚ) * (3 / 4)⌋ := by
  have hdmQ : (4 : ℚ) * (((3 * L) / 4 : ℕ) : ℚ) + (((3 * L) % 4 : ℕ) : ℚ) = 3 * L := by
    exact_mod_cast congrArg (Nat.cast : ℕ → ℚ) (Nat.div_add_mod (3 * L) 4)
  have hmltQ : (((3 * L) % 4 : ℕ) : ℚ) < 4 := by
    exact_mod_cast Nat.mod_lt (3 * L) (show 0 < 4 by norm_num)
  have hmnn : (0 : ℚ) ≤ (((3 * L) % 4 : ℕ) : ℚ) := by positivity
  have hfl : ⌊(L : ℚ) * (3 / 4)⌋ = (((3 * L) / 4 : ℕ) : ℤ) := by
    rw [Int.floor_eq_iff]
    simp only [Int.cast_natCast]
    constructor
    · linarith
    · linarith
  rw [peak_distance, hfl]
  push_cast
  rfl

lemma find_peaks_c4_eval :
    find_peaks ([0, 1, 0, 0, 1, 0] : List ℚ) (1 / 2) 3 = [1, 4] := by
  rw [find_peaks]
  have hlm : local_maxima_1d ([0, 1, 0, 0, 1, 0] : List ℚ) = [1, 4] := by
    rw [local_maxima_1d, show (([0, 1, 0, 0, 1, 0] : List ℚ).length - 1) = 5 from rfl]
    rw [lmLoop, dif_pos (by norm_num)]
    rw [show ([0, 1, 0, 0, 1, 0] : List ℚ).getD (1 - 1) default = 0 from rfl,
      show ([0, 1, 0, 0, 1, 0] : List ℚ).getD 1 default = 1 from rfl,
      if_pos (by norm_num : (0 : ℚ) < 1)]
    have hpe : plateauEnd ([0, 1, 0, 0, 1, 0] : List ℚ) 1 5 2 = 2 := by
      rw [plateauEnd, dif_neg]
      rintro ⟨-, h⟩
      rw [show ([0, 1, 0, 0, 1, 0] : List ℚ).getD 2 default = 0 from rfl] at h
      norm_num at h
    rw [hpe]
    dsimp only
    rw [show ([0, 1, 0, 0, 1, 0] : List ℚ).getD 2 default = 0 from rfl,
      if_pos (by norm_num : (0 : ℚ) < 1),
      show ((1 + (2 - 1)) / 2 : ℕ) = 1 from rfl,
      show ((2 + 1) : ℕ) = 3 from rfl]
    rw [lmLoop, dif_pos (by norm_num : (3 : ℕ) < 5)]
    rw [show ([0, 1, 0, 0, 1, 0] : List ℚ).getD (3 - 1) default = 0 from rfl,
      show ([0, 1, 0, 0, 1, 0] : List ℚ).getD 3 default = 0 from rfl,
      if_neg (by norm_num : ¬ (0 : ℚ) < 0)]
    rw [show ((3 + 1) : ℕ) = 4 from rfl]
    rw [lmLoop, dif_pos (by norm_num : (4 : ℕ) < 5)]
    rw [show ([0, 1, 0, 0, 1, 0] : List ℚ).getD (4 - 1) default = 0 from rfl,
      show ([0, 1, 0, 0, 1, 0] : List ℚ).getD 4 default = 1 from rfl,
      if_pos (by norm_num : (0 : ℚ) < 1)]
    have hpe2 : plateauEnd ([0, 1, 0, 0, 1, 0] : List ℚ) 1 5 5 = 5 := by
      rw [plateauEnd, dif_neg]
      rintro ⟨h5, -⟩
      omega
    rw [hpe2]
    dsimp only
    rw [show ([0, 1, 0, 0, 1, 0] : List ℚ).getD 5 default = 0 from rfl,
      if_pos (by norm_num : (0 : ℚ) < 1),
      show ((4 + (5 - 1)) / 2 : ℕ) = 4 from rfl,
      show ((5 + 1) : ℕ) = 6 from rfl]
    rw [lmLoop, dif_neg (by norm_num : ¬ (6 : ℕ) < 5)]
  rw [hlm]
  rw [show (([1, 4] : List ℕ).filter
      fun p => decide ((1 : ℚ) / 2 ≤ ([0, 1, 0, 0, 1, 0] : List ℚ).getD p default))
      = [1, 4] from by
    rw [List.filter_cons_of_pos (by
      rw [show ([0, 1, 0, 0, 1, 0] : List ℚ).getD 1 default = 1 from rfl]
      exact decide_eq_true (by norm_num))]
    rw [List.filter_cons_of_pos (by
      rw [show ([0, 1, 0, 0, 1, 0] : List ℚ).getD 4 default = 1 from rfl]
      exact decide_eq_true (by norm_num))]
    rfl]
  rw [show List.map (fun p => ([0, 1, 0, 0, 1, 0] : List ℚ).getD p default) [1, 4]
      = [1, 1] from rfl]
  simp only [select_by_peak_distance, List.length_cons, List.length_nil]
  rw [show List.range 2 = [0, 1] from rfl]
  rw [show argsort ([1, 1] : List ℚ) [0, 1] = [1, 0] from by decide]
  rw [show ([1, 0] : List ℕ).reverse = [0, 1] from rfl]
  rw [spdLoop, if_pos (show (List.replicate 2 true).getD 0 false = true from rfl)]
  rw [show spdKeep1 [1, 4] 3 0 (List.replicate 2 true) = List.replicate 2 true from rfl]
  rw [show ([1, 4] : List ℕ).getD 0 0 = 1 from rfl]
  rw [clearRight, dif_neg (by decide)]
  rw [spdLoop, if_pos (show (List.replicate 2 true).getD 1 false = true from rfl)]
  rw [show spdKeep1 [1, 4] 3 1 (List.replicate 2 true) = List.replicate 2 true from rfl]
  rw [show ([1, 4] : List ℕ).getD 1 0 = 4 from rfl]
  rw [clearRight, dif_neg (by decide)]
  rw [spdLoop]
  rfl

lemma foldr_max_map_abs_replicate (a : ℝ) (ha : 0 ≤ a) :
    ∀ n, ((List.replicate (n + 1) a).map fun v => |v|).foldr max 0 = a := by
  intro n
  induction n with
  | zero => simp [abs_of_nonneg ha, ha]
  | succ n ih =>
    rw [List.replicate_succ, List.map_cons, List.foldr_cons, ih]
    rw [abs_of_nonneg ha, max_self]

lemma maxAbs_replicate (n : ℕ) (a : ℝ) (ha : 0 ≤ a) :
    maxAbs (List.replicate (n + 1) a) = a := by
  rw [maxAbs]
  exact foldr_max_map_abs_replicate a ha n

lemma zipWith_replicate_sq (a : ℝ) :
    ∀ n, List.zipWith (fun x y => (x - y) ^ 2) (List.replicate n (0 : ℝ))
        (List.replicate n a) = List.replicate n ((0 - a) ^ 2) := by
  intro n
  induction n with
  | zero => rfl
  | succ n ih =>
    rw [List.replicate_succ, List.replicate_succ, List.zipWith_cons_cons, ih,
      List.replicate_succ]

lemma euclidean_dist_replicate (n : ℕ) (a b : ℝ) (hb : 0 ≤ b)
    (hsq : (n : ℝ) * (0 - a) ^ 2 = b ^ 2) :
    euclidean_dist (List.replicate n 0) (List.replicate n a) = b := by
  rw [euclidean_dist, zipWith_replicate_sq, List.sum_replicate, nsmul_eq_mul]
  exact sqrt_eval _ b hb hsq

lemma find_peaks_010_eval :
    find_peaks ([0, 1, 0] : List ℚ) (1 / 2) 1 = [1] := by
  rw [find_peaks]
  have hlm : local_maxima_1d ([0, 1, 0] : List ℚ) = [1] := by
    rw [local_maxima_1d, show (([0, 1, 0] : List ℚ).length - 1) = 2 from rfl]
    rw [lmLoop, dif_pos (by norm_num)]
    rw [show ([0, 1, 0] : List ℚ).getD (1 - 1) default = 0 from rfl,
      show ([0, 1, 0] : List ℚ).getD 1 default = 1 from rfl,
      if_pos (by norm_num : (0 : ℚ) < 1)]
    have hpe : plateauEnd ([0, 1, 0] : List ℚ) 1 2 2 = 2 := by
      rw [plateauEnd, dif_neg]
      rintro ⟨h2, -⟩
      omega
    rw [hpe]
    dsimp only
    rw [show ([0, 1, 0] : List ℚ).getD 2 default = 0 from rfl,
      if_pos (by norm_num : (0 : ℚ) < 1),
      show ((1 + (2 - 1)) / 2 : ℕ) = 1 from rfl,
      show ((2 + 1) : ℕ) = 3 from rfl]
    rw [lmLoop, dif_neg (by norm_num : ¬ (3 : ℕ) < 2)]
  rw [hlm]
  rw [show (([1] : List ℕ).filter
      fun p => decide ((1 : ℚ) / 2 ≤ ([0, 1, 0] : List ℚ).getD p default)) = [1] from by
    refine List.filter_cons_of_pos ?_
    rw [show ([0, 1, 0] : List ℚ).getD 1 default = 1 from rfl]
    exact decide_eq_true (by norm_num)]
  rw [show List.map (fun p => ([0, 1, 0] : List ℚ).getD p default) [1] = [1] from rfl]
  exact select_singleton 1 1 1

lemma not_isclose0_num {x : ℝ} (h1 : 0 ≤ x) (h2 : 1 / 10 ^ 8 < x) : ¬ isclose0 x := by
  rw [isclose0, abs_of_nonneg h1, not_le]
  exact h2

end MoreHelpers

section Claims

/-- Claim C1, original statement, refuted at its own scenario: with reference
`[1,2,3]`, readings `[0,0,1,2,3,0,0]`, NCC, threshold `0.9`, the code detects
exactly one pulse, but with `start_index = 1` and `end_index = 3`, not
`start_index = 2` / `end_index = 4`.  The offset-1 window `[0,1,2]` is the
template minus a constant, so its NCC score equals the perfect score of
offset 2; scipy's `find_peaks` collapses this two-sample plateau to its
midpoint rounded down, offset 1. -/
theorem C1_counterexample :
    (outPulses (run_analysis [1, 2, 3] [0, 0, 1, 2, 3, 0, 0] [0, 1, 2, 3, 4, 5, 6] zeroFast
        .ncc (9 / 10) "2024-01-01 00:00:00")).map Pulse.start_index = [1] ∧
    (outPulses (run_analysis [1, 2, 3] [0, 0, 1, 2, 3, 0, 0] [0, 1, 2, 3, 4, 5, 6] zeroFast
        .ncc (9 / 10) "2024-01-01 00:00:00")).map Pulse.end_index = [3] ∧
    ¬ ((outPulses (run_analysis [1, 2, 3] [0, 0, 1, 2, 3, 0, 0] [0, 1, 2, 3, 4, 5, 6] zeroFast
        .ncc (9 / 10) "2024-01-01 00:00:00")).map Pulse.start_index = [2] ∧
       (outPulses (run_analysis [1, 2, 3] [0, 0, 1, 2, 3, 0, 0] [0, 1, 2, 3, 4, 5, 6] zeroFast
        .ncc (9 / 10) "2024-01-01 00:00:00")).map Pulse.end_index = [4]) := by
  rw [run_c1_eval "2024-01-01 00:00:00" zeroFast]
  refine ⟨rfl, rfl, ?_⟩
  rintro ⟨h, -⟩
  simp [outPulses] at h

/-- Claim C1, amended: for reference `[1,2,3]`, readings `[0,0,1,2,3,0,0]`,
NCC, threshold `0.9` (separation factor fixed at 0.75 in the code), the run
completes with exactly one Pulse, with `start_index = 1`, `end_index = 3`
and `similarity_score = 1` (the plateau of perfect scores at offsets 1 and 2
collapses to offset 1). -/
theorem C1_amended : ∀ (ts : String) (f : List ℝ → List ℝ → ℝ),
    run_analysis [1, 2, 3] [0, 0, 1, 2, 3, 0, 0] [0, 1, 2, 3, 4, 5, 6] f .ncc (9 / 10) ts
      = .completed ⟨[⟨1, 1, 3, 1, 3, 1⟩], "Normalized Cross Correlation", 9 / 10, 3, 1, ts⟩ :=
  fun ts f => run_c1_eval ts f

/-- Claim C2, original statement, refuted: an out-of-range threshold (here
`1.5`) does not produce a validation error and does not stop the run — the
`except ValueError` handler substitutes the default threshold `0.7` and the
full analysis proceeds (here through the flat-reference score sequence and
peak extraction to the ordinary "no pulses found" outcome). -/
theorem C2_counterexample :
    run_analysis [1, 1] [0, 0, 0] [0, 1, 2] zeroFast .ncc (3 / 2) "2024-01-01 00:00:00"
      = .noPeaks "Normalized Cross Correlation" (7 / 10) ∧
    ¬ (run_analysis [1, 1] [0, 0, 0] [0, 1, 2] zeroFast .ncc (3 / 2) "2024-01-01 00:00:00"
        = .referenceEmptyError ∨
       run_analysis [1, 1] [0, 0, 0] [0, 1, 2] zeroFast .ncc (3 / 2) "2024-01-01 00:00:00"
        = .referenceLongerError) := by
  rw [run_c2_eval "2024-01-01 00:00:00" zeroFast]
  exact ⟨rfl, by rintro (h | h) <;> exact RunOutcome.noConfusion h⟩

/-- Claim C2, amended: a threshold outside `[0, 1]` is replaced by the
default `0.7` (after a warning dialog) and the analysis then runs exactly as
if `0.7` had been entered; no validation error is raised for the threshold.
(The empty-reference and reference-longer-than-readings checks do fail
fast, before any computation.) -/
theorem C2_amended : ∀ (reference readings timeAxis : List ℝ)
    (f : List ℝ → List ℝ → ℝ) (m : Method) (th : ℝ) (ts : String),
    ¬ (0 ≤ th ∧ th ≤ 1) →
    run_analysis reference readings timeAxis f m th ts
      = run_analysis reference readings timeAxis f m (7 / 10) ts :=
  fun reference readings timeAxis f m th ts hth =>
    run_analysis_threshold_default reference readings timeAxis f m th ts hth

/-- Witness for the amended claim C2 at threshold `1.5`. -/
theorem C2_amended_witness :
    ¬ ((0 : ℝ) ≤ 3 / 2 ∧ (3 : ℝ) / 2 ≤ 1) ∧
    run_analysis [1, 1] [0, 0, 0] [0, 1, 2] zeroFast .ncc (3 / 2) "t"
      = run_analysis [1, 1] [0, 0, 0] [0, 1, 2] zeroFast .ncc (7 / 10) "t" :=
  ⟨by norm_num,
   C2_amended [1, 1] [0, 0, 0] [0, 1, 2] zeroFast .ncc (3 / 2) "t" (by norm_num)⟩

/-- Claim C3, original statement, refuted: two runs on identical inputs are
not bit-identical in every field, because the result record embeds the
wall-clock time (`datetime.now()` at source line 919).  Two runs whose
clock reads differ produce different `AnalysisResult` values. -/
theorem C3_counterexample :
    run_analysis [3, 4] [0, 3, 4, 0, 0] [0, 1, 2, 3, 4] zeroFast .cosine (9 / 10)
        "2024-01-01 00:00:00"
      ≠ run_analysis [3, 4] [0, 3, 4, 0, 0] [0, 1, 2, 3, 4] zeroFast .cosine (9 / 10)
        "2024-01-01 00:00:01" := by
  rw [run_c3_eval "2024-01-01 00:00:00" zeroFast, run_c3_eval "2024-01-01 00:00:01" zeroFast]
  intro h
  simp at h

/-- Claim C3, amended: apart from the wall-clock `timestamp` field, the
outcome of `run_analysis` is a pure function of its inputs: erasing the
timestamp makes two runs with identical inputs equal, whatever the two
clock readings were. -/
theorem C3_amended : ∀ (reference readings timeAxis : List ℝ)
    (f : List ℝ → List ℝ → ℝ) (m : Method) (th : ℝ) (ts1 ts2 : String),
    stripTimestamp (run_analysis reference readings timeAxis f m th ts1)
      = stripTimestamp (run_analysis reference readings timeAxis f m th ts2) :=
  fun reference readings timeAxis f m th ts1 ts2 =>
    run_analysis_strip reference readings timeAxis f m th ts1 ts2

/-- Claim C4, original statement, refuted: the code derives the minimum
peak distance with `int(template_len * 0.75)` — truncation, not rounding.
For `template_len = 5` the claimed formula gives
`max(1, round(3.75)) = 4`, but the code uses `max(1, int(3.75)) = 3`, and
on the score sequence `[0,1,0,0,1,0]` it returns the two peaks 1 and 4,
which are only 3 < 4 apart. -/
theorem C4_counterexample :
    find_peaks ([0, 1, 0, 0, 1, 0] : List ℚ) (1 / 2) (peak_distance 5) = [1, 4] ∧
    |(1 : ℤ) - (4 : ℤ)| < max 1 (round ((5 : ℚ) * (3 / 4))) := by
  constructor
  · rw [show peak_distance 5 = 3 from rfl]
    exact find_peaks_c4_eval
  · rw [show round ((5 : ℚ) * (3 / 4)) = 4 from by
      rw [round_eq]
      rw [show (5 : ℚ) * (3 / 4) + 1 / 2 = 17 / 4 from by norm_num]
      rw [Int.floor_eq_iff]
      norm_num]
    decide

/-- Claim C4, amended: the peak extractor's minimum distance is
`max(1, int(template_len * 0.75))` — `⌊template_len * 0.75⌋`, truncation
rather than rounding — and with respect to that distance no two returned
peaks are closer: any two distinct offsets in the output of `find_peaks`
differ by at least the minimum distance. -/
theorem C4_amended :
    (∀ L : ℕ, (peak_distance L : ℤ) = max 1 ⌊(L : ℚ) * (3 / 4)⌋) ∧
    (∀ (x : List ℚ) (h : ℚ) (L : ℕ) (a b : ℕ),
      a ∈ find_peaks x h (peak_distance L) → b ∈ find_peaks x h (peak_distance L) →
      a ≠ b → (peak_distance L : ℤ) ≤ |(a : ℤ) - (b : ℤ)|) :=
  ⟨peak_distance_eq_floor,
   fun x h L a b ha hb hne => find_peaks_sep x h (peak_distance L) a b ha hb hne⟩

/-- Witness for the amended claim C4: on `[0,1,0,0,1,0]` with template
length 5 the two returned peaks 1 and 4 satisfy the code's separation
bound `peak_distance 5 = 3 ≤ |1 - 4|`. -/
theorem C4_amended_witness :
    ((peak_distance 5 : ℤ) = max 1 ⌊(5 : ℚ) * (3 / 4)⌋) ∧
    (1 ∈ find_peaks ([0, 1, 0, 0, 1, 0] : List ℚ) (1 / 2) (peak_distance 5) ∧
     4 ∈ find_peaks ([0, 1, 0, 0, 1, 0] : List ℚ) (1 / 2) (peak_distance 5) ∧
     (1 : ℕ) ≠ 4 ∧
     (peak_distance 5 : ℤ) ≤ |(1 : ℤ) - (4 : ℤ)|) := by
  have heval : find_peaks ([0, 1, 0, 0, 1, 0] : List ℚ) (1 / 2) (peak_distance 5) = [1, 4] := by
    rw [show peak_distance 5 = 3 from rfl]
    exact find_peaks_c4_eval
  have h1 : 1 ∈ find_peaks ([0, 1, 0, 0, 1, 0] : List ℚ) (1 / 2) (peak_distance 5) := by
    rw [heval]; simp
  have h4 : 4 ∈ find_peaks ([0, 1, 0, 0, 1, 0] : List ℚ) (1 / 2) (peak_distance 5) := by
    rw [heval]; simp
  exact ⟨C4_amended.1 5, h1, h4, by norm_num,
    C4_amended.2 [0, 1, 0, 0, 1, 0] (1 / 2) 5 1 4 h1 h4 (by norm_num)⟩

/-- Claim C5, original statement, refuted in its second half: a flat
reference does produce the all-zero score sequence, but no distinct
flat-reference condition is surfaced — the run is literally
indistinguishable from a normal run that completed and found nothing.
Witnessed by the flat reference `[1,1]` and the non-flat reference `[0,1]`
over readings `[5,5,5]`, whose entire observable outcomes are equal. -/
theorem C5_counterexample :
    isclose0 (npStd [1, 1]) ∧ ¬ isclose0 (npStd [0, 1]) ∧
    run_analysis [1, 1] [5, 5, 5] [0, 1, 2] zeroFast .ncc (1 / 2) "2024-01-01 00:00:00"
      = run_analysis [0, 1] [5, 5, 5] [0, 1, 2] zeroFast .ncc (1 / 2) "2024-01-01 00:00:00" := by
  refine ⟨by rw [npStd_11]; exact isclose0_zero, ?_, ?_⟩
  · rw [show npStd [(0 : ℝ), 1] = Real.sqrt (1 / 4) from by norm_num [npStd, npVar, npMean]]
    exact not_isclose0_sqrt _ (by norm_num)
  · rw [run_c5_flat_eval "2024-01-01 00:00:00" zeroFast,
      run_c5_nonflat_eval "2024-01-01 00:00:00" zeroFast]

/-- Claim C5, amended: for every reference whose standard deviation is
`np.isclose` to zero (flat template) with
`1 ≤ len(reference) ≤ len(readings)`, NCC returns the all-zero score
sequence of length `len(readings) - len(reference) + 1`; no distinct
flat-reference condition is raised (the run then proceeds like any run
that finds nothing). -/
theorem C5_amended : ∀ (signal template : List ℝ),
    1 ≤ template.length → template.length ≤ signal.length →
    isclose0 (npStd template) →
    normalized_cross_correlation signal template
      = List.replicate (signal.length - template.length + 1) 0 :=
  fun signal template h1 h2 hflat =>
    normalized_cross_correlation_flat signal template h1 h2 hflat

/-- Witness for the amended claim C5 with the flat reference `[1,1]`. -/
theorem C5_amended_witness :
    (1 ≤ [(1 : ℝ), 1].length ∧ [(1 : ℝ), 1].length ≤ [(5 : ℝ), 5, 5].length ∧
      isclose0 (npStd [1, 1])) ∧
    normalized_cross_correlation [5, 5, 5] [1, 1]
      = List.replicate ([(5 : ℝ), 5, 5].length - [(1 : ℝ), 1].length + 1) 0 :=
  ⟨⟨by norm_num, by norm_num, by rw [npStd_11]; exact isclose0_zero⟩,
   C5_amended [5, 5, 5] [1, 1] (by norm_num) (by norm_num)
     (by rw [npStd_11]; exact isclose0_zero)⟩

/-- Claim C6, confirmed: for valid inputs every NCC score and every Cosine
score lies in `[-1, 1]` and every DTW-derived similarity lies in `[0, 1]`.
In this real-number model the absence of NaN/Infinity is expressed by the
scores being (finite) real numbers inside those ranges; the fallback
`fastdtw` distance is only assumed to be nonnegative, as any sum of
absolute differences is. -/
theorem C6_bounds : ∀ (template signal : List ℝ) (fastdtw_distance : List ℝ → List ℝ → ℝ),
    1 ≤ template.length → template.length ≤ signal.length →
    (∀ a b, 0 ≤ fastdtw_distance a b) →
    (∀ x ∈ normalized_cross_correlation signal template, -1 ≤ x ∧ x ≤ 1) ∧
    (∀ x ∈ calculate_cosine_similarity signal template, -1 ≤ x ∧ x ≤ 1) ∧
    (∀ x ∈ calculate_dtw_similarity fastdtw_distance signal template, 0 ≤ x ∧ x ≤ 1) :=
  fun template signal f _ _ hf =>
    ⟨normalized_cross_correlation_bounds signal template,
     calculate_cosine_similarity_bounds signal template,
     calculate_dtw_similarity_bounds f hf signal template⟩

/-- Witness for claim C6 at template `[1,2]`, signal `[1,2,3]`. -/
theorem C6_bounds_witness :
    (1 ≤ [(1 : ℝ), 2].length ∧ [(1 : ℝ), 2].length ≤ [(1 : ℝ), 2, 3].length ∧
      ∀ a b : List ℝ, 0 ≤ zeroFast a b) ∧
    ((∀ x ∈ normalized_cross_correlation [1, 2, 3] [1, 2], -1 ≤ x ∧ x ≤ 1) ∧
     (∀ x ∈ calculate_cosine_similarity [1, 2, 3] [1, 2], -1 ≤ x ∧ x ≤ 1) ∧
     (∀ x ∈ calculate_dtw_similarity zeroFast [1, 2, 3] [1, 2], 0 ≤ x ∧ x ≤ 1)) :=
  ⟨⟨by norm_num, by norm_num, fun a b => le_refl 0⟩,
   C6_bounds [1, 2] [1, 2, 3] zeroFast (by norm_num) (by norm_num) (fun a b => le_refl 0)⟩

/-- Claim C7, original statement, refuted in an edge region: the claim
omits the guard `np.max(np.abs(template)) > 1e-9` of source line 812.  For
the 121-sample template filled with `1e-9` the Euclidean heuristic is
`1.1e-8` (not approximately 0 under `np.isclose`), so the claimed formula
uses `H = 1.1e-8`, while the code keeps `H = template_len = 121`; at
alignment distance 1 the similarities differ (`120/121` versus `0`). -/
theorem C7_counterexample :
    dtw_window_similarity
        (max_possible_dist_heuristic (List.replicate 121 (1 / 10 ^ 9))) 1 = 120 / 121 ∧
    dtw_window_similarity
        (max_possible_dist_heuristic_spec (List.replicate 121 (1 / 10 ^ 9))) 1 = 0 ∧
    (120 / 121 : ℝ) ≠ 0 := by
  have hma : maxAbs (List.replicate 121 (1 / 10 ^ 9 : ℝ)) = 1 / 10 ^ 9 :=
    maxAbs_replicate 120 _ (by norm_num)
  refine ⟨?_, ?_, by norm_num⟩
  · have hH : max_possible_dist_heuristic (List.replicate 121 (1 / 10 ^ 9 : ℝ)) = 121 := by
      rw [max_possible_dist_heuristic, hma, if_neg (by norm_num), List.length_replicate]
      norm_num
    rw [hH, dtw_window_similarity, if_neg (not_isclose0_num (by norm_num) (by norm_num))]
    rw [min_eq_left (by norm_num : (1 : ℝ) / 121 ≤ 1)]
    rw [show (1 : ℝ) - 1 / 121 = 120 / 121 from by norm_num]
    exact max_eq_right (by norm_num)
  · have hHs : max_possible_dist_heuristic_spec (List.replicate 121 (1 / 10 ^ 9 : ℝ))
        = 11 / 10 ^ 9 := by
      rw [max_possible_dist_heuristic_spec]
      rw [hma, List.length_replicate,
        euclidean_dist_replicate 121 (1 / 10 ^ 9) (11 / 10 ^ 9) (by norm_num) (by norm_num)]
      rw [if_neg (not_isclose0_num (by norm_num) (by norm_num))]
    rw [hHs, dtw_window_similarity, if_neg (not_isclose0_num (by norm_num) (by norm_num))]
    rw [min_eq_right (by rw [one_div_div]; norm_num)]
    norm_num

/-- Claim C7, amended: each DTW similarity score is the alignment distance
of that window mapped through
`H ↦ if H ≈ 0 then (1 if distance ≈ 0 else 0) else max(0, 1 - min(distance / H, 1))`,
where `H` is the template length whenever the template's maximum absolute
value is at most `1e-9`, and otherwise the Euclidean distance between the
all-zero vector and the max-abs-filled vector, falling back to the
template length if that distance is approximately 0. -/
theorem C7_amended : ∀ (fastdtw_distance : List ℝ → List ℝ → ℝ)
    (signal template : List ℝ) (i : ℕ),
    1 ≤ template.length → template.length ≤ signal.length →
    i < signal.length - template.length + 1 →
    (calculate_dtw_similarity fastdtw_distance signal template).getD i 0
      = dtw_window_similarity (max_possible_dist_heuristic_amended template)
          (dtw_window_distance fastdtw_distance signal template i) :=
  fun f signal template i h1 h2 hi =>
    calculate_dtw_similarity_getD f signal template h1 h2 i hi

/-- Witness for the amended claim C7 at signal `[0,0]`, template `[1]`,
window 0. -/
theorem C7_amended_witness :
    (1 ≤ [(1 : ℝ)].length ∧ [(1 : ℝ)].length ≤ [(0 : ℝ), 0].length ∧
      0 < [(0 : ℝ), 0].length - [(1 : ℝ)].length + 1) ∧
    (calculate_dtw_similarity zeroFast [0, 0] [1]).getD 0 0
      = dtw_window_similarity (max_possible_dist_heuristic_amended [1])
          (dtw_window_distance zeroFast [0, 0] [1] 0) :=
  ⟨⟨by norm_num, by norm_num, by norm_num⟩,
   C7_amended zeroFast [0, 0] [1] 0 (by norm_num) (by norm_num) (by norm_num)⟩

/-- Claim C8, confirmed: each of the three metrics returns a score
sequence of length `len(readings) - len(reference) + 1` whenever
`1 ≤ len(reference) ≤ len(readings)`, and the empty sequence when the
template is longer than the signal or either is empty. -/
theorem C8_lengths : ∀ (template signal : List ℝ)
    (fastdtw_distance : List ℝ → List ℝ → ℝ),
    ((1 ≤ template.length ∧ template.length ≤ signal.length) →
      (normalized_cross_correlation signal template).length
          = signal.length - template.length + 1 ∧
      (calculate_cosine_similarity signal template).length
          = signal.length - template.length + 1 ∧
      (calculate_dtw_similarity fastdtw_distance signal template).length
          = signal.length - template.length + 1) ∧
    ((template.length = 0 ∨ signal.length = 0 ∨ signal.length < template.length) →
      normalized_cross_correlation signal template = [] ∧
      calculate_cosine_similarity signal template = [] ∧
      calculate_dtw_similarity fastdtw_distance signal template = []) := by
  intro template signal f
  constructor
  · intro h
    exact ⟨normalized_cross_correlation_length signal template h.1 h.2,
      calculate_cosine_similarity_length signal template h.1 h.2,
      calculate_dtw_similarity_length f signal template h.1 h.2⟩
  · intro h
    exact ⟨normalized_cross_correlation_empty signal template h,
      calculate_cosine_similarity_empty signal template h,
      calculate_dtw_similarity_empty f signal template h⟩

/-- Witness for claim C8: the valid case at template `[1,2]`, signal
`[1,2,3]`, and the degenerate case at template `[1,2]`, signal `[1]`. -/
theorem C8_lengths_witness :
    ((normalized_cross_correlation [1, 2, 3] [1, 2]).length
        = [(1 : ℝ), 2, 3].length - [(1 : ℝ), 2].length + 1 ∧
      (calculate_cosine_similarity [1, 2, 3] [1, 2]).length
        = [(1 : ℝ), 2, 3].length - [(1 : ℝ), 2].length + 1 ∧
      (calculate_dtw_similarity zeroFast [1, 2, 3] [1, 2]).length
        = [(1 : ℝ), 2, 3].length - [(1 : ℝ), 2].length + 1) ∧
    (normalized_cross_correlation [1] [1, 2] = [] ∧
      calculate_cosine_similarity [1] [1, 2] = [] ∧
      calculate_dtw_similarity zeroFast [1] [1, 2] = []) :=
  ⟨(C8_lengths [1, 2] [1, 2, 3] zeroFast).1 (by norm_num),
   (C8_lengths [1, 2] [1] zeroFast).2 (by norm_num)⟩

/-- Claim C9, confirmed: scipy's local-maxima scan runs over
`1 ≤ i < len(x) - 1` only, so `find_peaks` never returns offset 0 or the
last offset of the score sequence — every returned peak is strictly
interior, and a template occurrence aligned at the first or last valid
window offset is never reported. -/
theorem C9_interior : ∀ {α : Type} [inst1 : LinearOrder α] [inst2 : Inhabited α]
    (x : List α) (height : α) (d : ℕ) (p : ℕ),
    p ∈ find_peaks x height d → p ≠ 0 ∧ p + 1 < x.length := by
  intro α _ _ x height d p hp
  have h := find_peaks_interior x height d p hp
  omega

/-- Witness for claim C9: on the score sequence `[0,1,0]` the single
returned peak, offset 1, is neither 0 nor the last offset. -/
theorem C9_interior_witness :
    (1 : ℕ) ≠ 0 ∧ 1 + 1 < ([0, 1, 0] : List ℚ).length :=
  C9_interior ([0, 1, 0] : List ℚ) (1 / 2) 1 1
    (by rw [find_peaks_010_eval]; exact List.mem_singleton.mpr rfl)

/-- Claim C10, confirmed: when the score sequence has length
`len(readings) - len(reference) + 1`, every peak offset `p` returned by
`find_peaks` satisfies `p + len(reference) ≤ len(readings)`, so the
bounds check that silently skips an out-of-range pulse never fires: the
assembly loop equals its check-free version (same pulse records and same
noise-zeroed signal) and produces exactly one pulse record per peak. -/
theorem C10_assembly : ∀ {α : Type} [inst1 : LinearOrder α] [inst2 : Inhabited α]
    [inst3 : Zero α] (scores readings timeAxis : List α) (th : α) (d M : ℕ),
    1 ≤ M → scores.length + M = readings.length + 1 →
    (∀ p ∈ find_peaks scores th d, p + M ≤ readings.length) ∧
    (assemble_pulses readings timeAxis M (find_peaks scores th d)
        ((find_peaks scores th d).map fun p => scores.getD p 0)
      = assemble_pulses_unchecked readings timeAxis M (find_peaks scores th d)
        ((find_peaks scores th d).map fun p => scores.getD p 0)) ∧
    (assemble_pulses readings timeAxis M (find_peaks scores th d)
        ((find_peaks scores th d).map fun p => scores.getD p 0)).1.length
      = (find_peaks scores th d).length := by
  intro α _ _ _ scores readings timeAxis th d M hM hlen
  have hbound : ∀ p ∈ find_peaks scores th d, p + M ≤ readings.length := by
    intro p hp
    have h := find_peaks_interior scores th d p hp
    omega
  have hzb : ∀ q ∈ (find_peaks scores th d).zip
      ((find_peaks scores th d).map fun p => scores.getD p 0),
      q.1 + M ≤ readings.length := by
    intro q hq
    obtain ⟨p, v⟩ := q
    have h := List.of_mem_zip hq
    exact hbound p h.1
  refine ⟨hbound, ?_, ?_⟩
  · rw [assemble_pulses, assemble_pulses_unchecked]
    exact assembleGo_eq_unchecked readings timeAxis M _ 0 _ hzb
  · rw [assemble_pulses, assembleGo_eq_unchecked readings timeAxis M _ 0 _ hzb,
      assembleUncheckedGo_length, List.length_zip, List.length_map, min_self]

/-- Witness for claim C10 at scores `[0,1,0]`, readings `[5,6,7,8]`,
template length 2. -/
theorem C10_assembly_witness :
    (∀ p ∈ find_peaks ([0, 1, 0] : List ℚ) (1 / 2) 1,
      p + 2 ≤ ([5, 6, 7, 8] : List ℚ).length) ∧
    (assemble_pulses ([5, 6, 7, 8] : List ℚ) [0, 1, 2, 3] 2
        (find_peaks ([0, 1, 0] : List ℚ) (1 / 2) 1)
        ((find_peaks ([0, 1, 0] : List ℚ) (1 / 2) 1).map
          fun p => ([0, 1, 0] : List ℚ).getD p 0)
      = assemble_pulses_unchecked ([5, 6, 7, 8] : List ℚ) [0, 1, 2, 3] 2
        (find_peaks ([0, 1, 0] : List ℚ) (1 / 2) 1)
        ((find_peaks ([0, 1, 0] : List ℚ) (1 / 2) 1).map
          fun p => ([0, 1, 0] : List ℚ).getD p 0)) ∧
    (assemble_pulses ([5, 6, 7, 8] : List ℚ) [0, 1, 2, 3] 2
        (find_peaks ([0, 1, 0] : List ℚ) (1 / 2) 1)
        ((find_peaks ([0, 1, 0] : List ℚ) (1 / 2) 1).map
          fun p => ([0, 1, 0] : List ℚ).getD p 0)).1.length
      = (find_peaks ([0, 1, 0] : List ℚ) (1 / 2) 1).length :=
  C10_assembly ([0, 1, 0] : List ℚ) [5, 6, 7, 8] [0, 1, 2, 3] (1 / 2) 1 2
    (by norm_num) (by norm_num)

end Claims

end PulseAnalyzer
